import Mathlib

/-!
Verification development for pysar/objects/insarobj.py: a shallow embedding of
the ifgramStack / ifgram / geometry / platformTrack classes and proofs about
their behaviour.  File contents (rasters, sidecar files, attribute sets) and
the external collaborators (the single-file reader, the geometric utilities,
the attribute subsetter) are threaded explicitly through a `FileSys` record;
the HDF5 container is modelled as a pure value with h5py's group/dataset
semantics (creating an already-existing group or dataset is an error, resizing
a 1-D dataset replaces its payload).  Fallible Python code becomes `Except`.
-/

deriving instance DecidableEq for Except

/-- A flat string-keyed attribute mapping, as returned by readfile.read_attribute. -/
abbrev AttrDict := List (String × String)

/-- A 2-D raster: a list of rows of rational samples. -/
abbrev Raster := List (List ℚ)

/-- A pixel-space subset rectangle (x0, y0, x1, y1). -/
abbrev Box := ℕ × ℕ × ℕ × ℕ

/-- Association-list lookup by string key (Python dict read `d[k]` / `k in d`). -/
def lookupD {α : Type} : List (String × α) → String → Option α
  | [], _ => none
  | (k', v) :: rest, k => if k' = k then some v else lookupD rest k

/-- Association-list update by string key (Python dict write `d[k] = v`):
overwrite in place if the key exists, append otherwise. -/
def setKV {α : Type} : List (String × α) → String → α → List (String × α)
  | [], k, v => [(k, v)]
  | (k', v') :: rest, k, v => if k' = k then (k, v) :: rest else (k', v') :: setKV rest k v

/-- Numpy-style 2-D slicing `data[y0:y1, x0:x1]`, identity when no box is given. -/
def crop (r : Raster) (box : Option Box) : Raster :=
  match box with
  | none => r
  | some (bx0, by0, bx1, by1) =>
      ((r.drop by0).take (by1 - by0)).map (fun row => (row.drop bx0).take (bx1 - bx0))

/-- Whether a raster has exactly `l` rows of exactly `w` samples each. -/
def dimsB (r : Raster) (l w : ℕ) : Bool :=
  r.length == l && r.all (fun row => row.length == w)

/-- An all-zero raster of `l` rows and `w` columns (a freshly created dataset). -/
def zeroRaster (l w : ℕ) : Raster :=
  List.replicate l (List.replicate w 0)

/-- Modelled from the spec: the external collaborators of insarobj.py, which are
not part of the given source file.  `attrOf` is readfile.read_attribute (None
when the read fails), `rasterOf` is the full raster behind a plain-path
readfile.read, `rasterOfEpoch` the raster behind an epoch-selecting read,
`pathExists` is os.path.exists, `subsetAttr` is ut.subset_attribute's
box-adjustment, `rangeDistance` and `incidenceAngleOf` are ut.range_distance
and ut.incidence_angle evaluated on a metadata set. -/
structure FileSys where
  attrOf : String → Option AttrDict
  rasterOf : String → Option Raster
  rasterOfEpoch : String → String → Option Raster
  pathExists : String → Bool
  subsetAttr : AttrDict → Box → AttrDict
  rangeDistance : AttrDict → Raster
  incidenceAngleOf : AttrDict → Raster

/-- The error taxonomy of the embedding.  `missingAttribute` is the spec's
MissingAttributeError (a KeyError on a required metadata key),
`datasetNotFound` its DatasetNotFoundError (a family not registered in a
record's datasetDict), `readError` a failing external file read,
`valueError` a failing int()/float() conversion or max() on an empty list,
`indexError` indexing of the first pair of an empty pairsDict, and the
remaining constructors are the h5py container errors. -/
inductive Err where
  | missingAttribute (key : String)
  | datasetNotFound (family : String)
  | readError (path : String)
  | valueError
  | indexError
  | fileNotFound
  | badMode
  | duplicateGroup (name : String)
  | duplicateDataset (name : String)
  | typeMismatch
  | shapeMismatch
deriving DecidableEq, Repr

/-- Element type tags of container datasets (np.float32 / np.bool_). -/
inductive DType where
  | float32
  | bool_
deriving DecidableEq, Repr

/-- A container dataset: a 3-D pair-indexed stack, a 2-D layer, the (m, 2)
date-string array, a 1-D float vector, or a 1-D boolean vector. -/
inductive Dset where
  | d3 (t : DType) (stack : List Raster)
  | d2 (t : DType) (r : Raster)
  | d2str (rows : List (String × String))
  | d1 (v : List ℚ)
  | d1b (v : List Bool)
deriving DecidableEq, Repr

/-- One HDF5 group: named datasets plus root attributes. -/
structure H5Group where
  dsets : List (String × Dset)
  attrs : AttrDict
deriving DecidableEq, Repr

/-- One HDF5 file: named root-level groups. -/
structure H5File where
  groups : List (String × H5Group)
deriving DecidableEq, Repr

/-- h5py.File(path, mode): 'w' truncates to an empty file, 'r+' opens the
existing file and fails when there is none; other modes are outside the
behaviour exercised by the source ('w' and 'r+' per its docstring). -/
def h5open (mode : String) (prior : Option H5File) : Except Err H5File :=
  if mode = "w" then .ok ⟨[]⟩
  else if mode = "r+" then
    match prior with
    | some f => .ok f
    | none => .error .fileNotFound
  else .error .badMode

/-- h5py Group.create_dataset: fails when a dataset of that name exists. -/
def createDataset (dss : List (String × Dset)) (name : String) (v : Dset) :
    Except Err (List (String × Dset)) :=
  if (lookupD dss name).isSome then .error (.duplicateDataset name)
  else .ok (dss ++ [(name, v)])

/-- The numeric value of a decimal digit character. -/
def digitVal (c : Char) : Option ℕ :=
  if c = '0' then some 0 else if c = '1' then some 1 else if c = '2' then some 2
  else if c = '3' then some 3 else if c = '4' then some 4 else if c = '5' then some 5
  else if c = '6' then some 6 else if c = '7' then some 7 else if c = '8' then some 8
  else if c = '9' then some 9 else none

/-- Accumulate a decimal digit string into a natural number. -/
def natOfDigits : List Char → ℕ → Option ℕ
  | [], acc => some acc
  | c :: rest, acc =>
      match digitVal c with
      | none => none
      | some d => natOfDigits rest (acc * 10 + d)

/-- Python int() on a plain nonnegative decimal literal (character-list
implementation of the parse, so that it evaluates inside the kernel). -/
def parseNat (s : String) : Option ℕ :=
  match s.data with
  | [] => none
  | cs => natOfDigits cs 0

/-- Python int(metadata[k]) with the KeyError surfaced as MissingAttributeError. -/
def getNatAttr (md : AttrDict) (k : String) : Except Err ℕ :=
  match lookupD md k with
  | none => .error (.missingAttribute k)
  | some s =>
      match parseNat s with
      | none => .error .valueError
      | some n => .ok n

/-- Split a character list at every dot, keeping empty groups. -/
def splitDot : List Char → List (List Char)
  | [] => [[]]
  | c :: rest =>
      if c = '.' then [] :: splitDot rest
      else
        match splitDot rest with
        | [] => [[c]]
        | g :: gs => (c :: g) :: gs

/-- Parse an unsigned plain decimal literal (digits, optional dot and digits)
as an exact rational. -/
def parseDecCore (cs : List Char) : Option ℚ :=
  match splitDot cs with
  | [a] => if a.isEmpty then none else (natOfDigits a 0).map (fun n => (n : ℚ))
  | [a, b] =>
      if a.isEmpty || b.isEmpty then none
      else
        match natOfDigits a 0, natOfDigits b 0 with
        | some x, some y => some ((x : ℚ) + (y : ℚ) / ((10 : ℚ) ^ b.length))
        | _, _ => none
  | _ => none

/-- Python float() on a plain decimal literal with an optional leading minus,
as an exact rational. -/
def parseDec (s : String) : Option ℚ :=
  match s.data with
  | '-' :: rest => (parseDecCore rest).map (fun q => -q)
  | cs => parseDecCore cs

/-- Python float(metadata[k]) with the KeyError surfaced as MissingAttributeError. -/
def getFloatAttr (md : AttrDict) (k : String) : Except Err ℚ :=
  match lookupD md k with
  | none => .error (.missingAttribute k)
  | some s =>
      match parseDec s with
      | none => .error .valueError
      | some q => .ok q

/-- Modelled from the spec: the canonical interferogram dataset-family names,
defined in pysar.objects outside the given source file; the reference family
(index 0) is unwrapPhase. -/
def ifgramDatasetNames : List String :=
  ["unwrapPhase", "coherence", "connectComponent", "wrapPhase", "rangeOffset", "azimuthOffset"]

/-- Modelled from the spec: the canonical geometry dataset-family names,
defined in pysar.objects outside the given source file; the reference family
(index 0) is height. -/
def geometryDatasetNames : List String :=
  ["height", "latitude", "longitude", "incidenceAngle", "slantRangeDistance",
   "headingAngle", "shadowMask", "waterMask", "bperp"]

/-- Modelled from the spec: the external single-file reader
readfile.read(path, box) returns the raster restricted to the box together
with the file's attribute set. -/
def readfile_read (fs : FileSys) (path : String) (box : Option Box) :
    Except Err (Raster × AttrDict) :=
  match fs.rasterOf path with
  | none => .error (.readError path)
  | some r => .ok (crop r box, (fs.attrOf path).getD [])

/-- Modelled from the spec: readfile.read(path, epoch, box), the variant that
selects a named sub-dataset (epoch) inside one physical file. -/
def readfile_read_epoch (fs : FileSys) (path epoch : String) (box : Option Box) :
    Except Err (Raster × AttrDict) :=
  match fs.rasterOfEpoch path epoch with
  | none => .error (.readError path)
  | some r => .ok (crop r box, (fs.attrOf path).getD [])

/-- Modelled from the spec: ut.subset_attribute adjusts spatially dependent
attributes for a cropped region and is the identity when no box is given; the
adjustment itself is an external collaborator kept abstract in `FileSys`. -/
def subset_attribute (fs : FileSys) (attrs : AttrDict) (box : Option Box) : AttrDict :=
  match box with
  | none => attrs
  | some b => fs.subsetAttr attrs b

/-- The characters of `s` after its last dot (all of `s` when it has none). -/
def lastExtAux : List Char → List Char → List Char
  | [], cur => cur
  | c :: rest, cur => if c = '.' then lastExtAux rest [] else lastExtAux rest (cur ++ [c])

/-- Python `s.split('.')[-1]` (character-list implementation). -/
def lastExt (s : String) : String :=
  ⟨lastExtAux s.data []⟩

/-- Insertion into a sorted list of naturals. -/
def insertSorted (x : ℕ) : List ℕ → List ℕ
  | [] => [x]
  | y :: rest => if x ≤ y then x :: y :: rest else y :: insertSorted x rest

/-- Insertion sort of a list of naturals. -/
def sortNat (xs : List ℕ) : List ℕ :=
  xs.foldr insertSorted []

/-- Modelled from the spec: the source calls a name `median` that is neither
defined nor imported in the file; the spec (sections 4.5 and 8) specifies the
statistical median, i.e. numpy's: the middle element of the sorted data for
odd length, the mean of the two middle elements for even length. -/
def median (xs : List ℕ) : ℚ :=
  let s := sortNat xs
  if s.length % 2 = 1 then ((s.getD (s.length / 2) 0 : ℕ) : ℚ)
  else if s.length = 0 then 0
  else (((s.getD (s.length / 2 - 1) 0 : ℕ) : ℚ) + ((s.getD (s.length / 2) 0 : ℕ) : ℚ)) / 2

/-- Whether an Except computation succeeded. -/
def exOk {ε α : Type} : Except ε α → Bool
  | .ok _ => true
  | .error _ => false

/-!  The ifgram class: one InSAR pair. -/

/-- The ifgram class: one interferometric pair with its family-to-path
registry; platform, track and processor may be pre-set via the constructor's
metadata overrides. -/
structure ifgram where
  name : String
  masterDate : String
  slaveDate : String
  datasetDict : List (String × String)
  processor : Option String
  track : Option String
  platform : Option String
deriving DecidableEq, Repr

/-- ifgram.read(family, box): look the family's path up and delegate to the
external reader. -/
def ifgram.read (fs : FileSys) (obj : ifgram) (family : String) (box : Option Box) :
    Except Err (Raster × AttrDict) :=
  match lookupD obj.datasetDict family with
  | none => .error (.datasetNotFound family)
  | some file => readfile_read fs file box

/-- ifgram.get_size: LENGTH/WIDTH of the reference family's file. -/
def ifgram.get_size (fs : FileSys) (obj : ifgram) : Except Err (ℕ × ℕ) :=
  match lookupD obj.datasetDict (ifgramDatasetNames.headD "") with
  | none => .error (.datasetNotFound (ifgramDatasetNames.headD ""))
  | some file =>
      match fs.attrOf file with
      | none => .error (.readError file)
      | some md =>
          match getNatAttr md "LENGTH" with
          | .error e => .error e
          | .ok l =>
              match getNatAttr md "WIDTH" with
              | .error e => .error e
              | .ok w => .ok (l, w)

/-- ifgram.get_perp_baseline: the mean of the top and bottom perpendicular
baseline attributes of the reference family's file. -/
def ifgram.get_perp_baseline (fs : FileSys) (obj : ifgram) : Except Err ℚ :=
  match lookupD obj.datasetDict (ifgramDatasetNames.headD "") with
  | none => .error (.datasetNotFound (ifgramDatasetNames.headD ""))
  | some file =>
      match fs.attrOf file with
      | none => .error (.readError file)
      | some md =>
          match getFloatAttr md "P_BASELINE_TOP_HDR" with
          | .error e => .error e
          | .ok t =>
              match getFloatAttr md "P_BASELINE_BOTTOM_HDR" with
              | .error e => .error e
              | .ok b => .ok ((t + b) / 2)

/-- The optional tag injection of ifgram.get_metadata: `if self.track:
self.metadata['TRACK'] = self.track` (Python truthiness: None and the empty
string both skip). -/
def tagStep (m : AttrDict) (key : String) (t : Option String) : AttrDict :=
  match t with
  | none => m
  | some s => if s = "" then m else setKV m key s

/-- ifgram.get_metadata(family): read the family file's attribute set, infer
the processor when it is not already set (sidecar probes .xml/.rsc/.par, then
the grd extension, then the file's own PROCESSOR attribute, then 'isce'),
inject PROCESSOR and the optional TRACK/PLATFORM tags, and return the
attribute set together with the processor value now cached on the object. -/
def ifgram.get_metadata (fs : FileSys) (obj : ifgram) (family : String) :
    Except Err (AttrDict × String) :=
  match lookupD obj.datasetDict family with
  | none => .error (.datasetNotFound family)
  | some file =>
      match fs.attrOf file with
      | none => .error (.readError file)
      | some md0 =>
          match getNatAttr md0 "LENGTH" with
          | .error e => .error e
          | .ok _ =>
              match getNatAttr md0 "WIDTH" with
              | .error e => .error e
              | .ok _ =>
                  let proc :=
                    match obj.processor with
                    | some p => p
                    | none =>
                        if fs.pathExists (file ++ ".xml") then "isce"
                        else if fs.pathExists (file ++ ".rsc") then "roipac"
                        else if fs.pathExists (file ++ ".par") then "gamma"
                        else if lastExt file = "grd" then "gmtsar"
                        else
                          match lookupD md0 "PROCESSOR" with
                          | some p => p
                          | none => "isce"
                  let md1 := setKV md0 "PROCESSOR" proc
                  let md2 := tagStep md1 "TRACK" obj.track
                  let md3 := tagStep md2 "PLATFORM" obj.platform
                  .ok (md3, proc)

/-!  The ifgramStack class: a set of pairs written to one stack container. -/

/-- The ifgramStack class: the root group name and the ordered date-pair to
ifgram mapping. -/
structure ifgramStack where
  name : String
  pairsDict : List ((String × String) × ifgram)
deriving DecidableEq, Repr

/-- ifgramStack.get_size(box): pair count, and either the box dimensions
(length = y1 - y0, width = x1 - x0) or the first pair's LENGTH/WIDTH. -/
def ifgramStack.get_size (fs : FileSys) (st : ifgramStack) (box : Option Box) :
    Except Err (ℕ × ℕ × ℕ) :=
  match st.pairsDict with
  | [] => .error .indexError
  | q0 :: _ =>
      match ifgram.get_size fs q0.2 with
      | .error e => .error e
      | .ok (l0, w0) =>
          match box with
          | some (bx0, by0, bx1, by1) => .ok (st.pairsDict.length, by1 - by0, bx1 - bx0)
          | none => .ok (st.pairsDict.length, l0, w0)

/-- ifgramStack.get_metadata: the first pair's metadata for the reference family. -/
def ifgramStack.get_metadata (fs : FileSys) (st : ifgramStack) :
    Except Err (AttrDict × String) :=
  match st.pairsDict with
  | [] => .error .indexError
  | q0 :: _ => ifgram.get_metadata fs q0.2 (ifgramDatasetNames.headD "")

/-- Element type of a stack dataset family: bool for connectComponent, float32
otherwise. -/
def stackDType (d : String) : DType :=
  if d = "connectComponent" then .bool_ else .float32

/-- The inner per-pair loop of ifgramStack.save2h5 for one dataset family:
read each pair's raster (optionally under the box), write it into slice i of
the pre-allocated stack (h5py rejects a shape mismatch), and record the pair's
perpendicular baseline into slot i of the bperp vector. -/
def fillSlices (fs : FileSys) (box : Option Box) (l w : ℕ) (d : String) :
    List ifgram → ℕ → List Raster → List ℚ → Except Err (List Raster × List ℚ)
  | [], _, stack, bperp => .ok (stack, bperp)
  | o :: rest, i, stack, bperp =>
      match ifgram.read fs o d box with
      | .error e => .error e
      | .ok (data, _) =>
          if dimsB data l w then
            match ifgram.get_perp_baseline fs o with
            | .error e => .error e
            | .ok b => fillSlices fs box l w d rest (i + 1) (stack.set i data) (bperp.set i b)
          else .error .shapeMismatch

/-- The outer per-family loop of ifgramStack.save2h5: create each family's
3-D dataset (initially zero, h5py rejects a duplicate name) and run the
per-pair fill. -/
def writeFamilies (fs : FileSys) (box : Option Box) (l w n : ℕ) (objs : List ifgram) :
    List String → List (String × Dset) → List ℚ →
      Except Err (List (String × Dset) × List ℚ)
  | [], dss, bperp => .ok (dss, bperp)
  | d :: rest, dss, bperp =>
      if (lookupD dss d).isSome then .error (.duplicateDataset d)
      else
        match fillSlices fs box l w d objs 0 (List.replicate n (zeroRaster l w)) bperp with
        | .error e => .error e
        | .ok (stack, bperp2) =>
            writeFamilies fs box l w n objs rest
              (dss ++ [(d, .d3 (stackDType d) stack)]) bperp2

/-- The bperp step of ifgramStack.save2h5: create the resizable bperp dataset
when absent, otherwise resize it to the pair count and overwrite its payload
(the update-mode practice noted in the source). -/
def bperpStep (dss : List (String × Dset)) (bperp : List ℚ) :
    Except Err (List (String × Dset)) :=
  match lookupD dss "bperp" with
  | none => .ok (dss ++ [("bperp", .d1 bperp)])
  | some (.d1 _) => .ok (setKV dss "bperp" (.d1 bperp))
  | some _ => .error .typeMismatch

/-- ifgramStack.save2h5(outputFile, access_mode, box): open the container,
create the root group, derive the family list from the first pair, compute
(numIfgram, length, width), iterate per family and per pair, then write the
date, bperp and dropIfgram datasets and the consolidated attributes.  The
returned value is the output path together with the final container state. -/
def ifgramStack.save2h5 (fs : FileSys) (st : ifgramStack) (outputFile mode : String)
    (box : Option Box) (prior : Option H5File) : Except Err (String × H5File) :=
  match h5open mode prior with
  | .error e => .error e
  | .ok f0 =>
      if (lookupD f0.groups st.name).isSome then .error (.duplicateGroup st.name)
      else
        match st.pairsDict with
        | [] => .error .indexError
        | q0 :: _ =>
            let dsNames := q0.2.datasetDict.map Prod.fst
            if dsNames.isEmpty then .error .valueError
            else
              match ifgramStack.get_size fs st box with
              | .error e => .error e
              | .ok (n, l, w) =>
                  let objs := st.pairsDict.map Prod.snd
                  let pairs := st.pairsDict.map Prod.fst
                  match writeFamilies fs box l w n objs dsNames [] (List.replicate n 0) with
                  | .error e => .error e
                  | .ok (dss, bperp) =>
                      match createDataset dss "date" (.d2str pairs) with
                      | .error e => .error e
                      | .ok dss2 =>
                          match bperpStep dss2 bperp with
                          | .error e => .error e
                          | .ok dss3 =>
                              match createDataset dss3 "dropIfgram"
                                  (.d1b (List.replicate n true)) with
                              | .error e => .error e
                              | .ok dss4 =>
                                  match ifgramStack.get_metadata fs st with
                                  | .error e => .error e
                                  | .ok (md, _) =>
                                      .ok (outputFile,
                                        ⟨f0.groups ++
                                          [(st.name, ⟨dss4, subset_attribute fs md box⟩)]⟩)

/-!  The geometry class: static geometry layers for one platform/track. -/

/-- The geometry class: layer-name to path registry plus the cached reference
interferogram metadata used to derive incidence angle and slant range. -/
structure geometry where
  name : String
  processor : Option String
  datasetDict : List (String × String)
  ifgramMetadata : Option AttrDict
deriving DecidableEq, Repr

/-- geometry.read(family, box): epoch-selecting read of the family's file. -/
def geometry.read (fs : FileSys) (g : geometry) (family : String) (box : Option Box) :
    Except Err (Raster × AttrDict) :=
  match lookupD g.datasetDict family with
  | none => .error (.datasetNotFound family)
  | some file => readfile_read_epoch fs file family box

/-- geometry.get_slantRangeDistance(box): None when there is no reference
interferogram metadata (None or empty, Python truthiness) or it carries the
geocoded marker Y_FIRST; otherwise ut.range_distance cropped to the box. -/
def geometry.get_slantRangeDistance (fs : FileSys) (g : geometry) (box : Option Box) :
    Option Raster :=
  match g.ifgramMetadata with
  | none => none
  | some md =>
      if md.isEmpty || (lookupD md "Y_FIRST").isSome then none
      else some (crop (fs.rangeDistance md) box)

/-- geometry.get_incidenceAngle(box): same guard as get_slantRangeDistance,
with ut.incidence_angle as the collaborator. -/
def geometry.get_incidenceAngle (fs : FileSys) (g : geometry) (box : Option Box) :
    Option Raster :=
  match g.ifgramMetadata with
  | none => none
  | some md =>
      if md.isEmpty || (lookupD md "Y_FIRST").isSome then none
      else some (crop (fs.incidenceAngleOf md) box)

/-- geometry.get_size(box): always reads the reference family's attribute set,
then returns the box dimensions when a box is supplied and LENGTH/WIDTH
otherwise. -/
def geometry.get_size (fs : FileSys) (g : geometry) (box : Option Box) :
    Except Err (ℕ × ℕ) :=
  match lookupD g.datasetDict (geometryDatasetNames.headD "") with
  | none => .error (.datasetNotFound (geometryDatasetNames.headD ""))
  | some file =>
      match fs.attrOf file with
      | none => .error (.readError file)
      | some md =>
          match box with
          | some (bx0, by0, bx1, by1) => .ok (by1 - by0, bx1 - bx0)
          | none =>
              match getNatAttr md "LENGTH" with
              | .error e => .error e
              | .ok l =>
                  match getNatAttr md "WIDTH" with
                  | .error e => .error e
                  | .ok w => .ok (l, w)

/-- geometry.get_metadata(family): like ifgram.get_metadata but the file's own
PROCESSOR attribute is consulted before the sidecar probes, and no
TRACK/PLATFORM tags are injected. -/
def geometry.get_metadata (fs : FileSys) (g : geometry) (family : String) :
    Except Err (AttrDict × String) :=
  match lookupD g.datasetDict family with
  | none => .error (.datasetNotFound family)
  | some file =>
      match fs.attrOf file with
      | none => .error (.readError file)
      | some md0 =>
          match getNatAttr md0 "LENGTH" with
          | .error e => .error e
          | .ok _ =>
              match getNatAttr md0 "WIDTH" with
              | .error e => .error e
              | .ok _ =>
                  let proc :=
                    match g.processor with
                    | some p => p
                    | none =>
                        match lookupD md0 "PROCESSOR" with
                        | some p => p
                        | none =>
                            if fs.pathExists (file ++ ".xml") then "isce"
                            else if fs.pathExists (file ++ ".rsc") then "roipac"
                            else if fs.pathExists (file ++ ".par") then "gamma"
                            else if lastExt file = "grd" then "gmtsar"
                            else "isce"
                  .ok (setKV md0 "PROCESSOR" proc, proc)

/-- ASCII lower-casing of a character (identity outside the letters used by
layer names). -/
def charLower (c : Char) : Char :=
  if c = 'A' then 'a' else if c = 'B' then 'b' else if c = 'C' then 'c'
  else if c = 'D' then 'd' else if c = 'E' then 'e' else if c = 'F' then 'f'
  else if c = 'G' then 'g' else if c = 'H' then 'h' else if c = 'I' then 'i'
  else if c = 'J' then 'j' else if c = 'K' then 'k' else if c = 'L' then 'l'
  else if c = 'M' then 'm' else if c = 'N' then 'n' else if c = 'O' then 'o'
  else if c = 'P' then 'p' else if c = 'Q' then 'q' else if c = 'R' then 'r'
  else if c = 'S' then 's' else if c = 'T' then 't' else if c = 'U' then 'u'
  else if c = 'V' then 'v' else if c = 'W' then 'w' else if c = 'X' then 'x'
  else if c = 'Y' then 'y' else if c = 'Z' then 'z' else c

/-- Python `s.lower().endswith('mask')` (character-list implementation). -/
def lowerEndsWithMask (s : String) : Bool :=
  match (s.data.map charLower).reverse with
  | 'k' :: 's' :: 'a' :: 'm' :: _ => true
  | _ => false

/-- Element type of a geometry layer: bool for names ending in mask, float32
otherwise. -/
def geomDType (d : String) : DType :=
  if lowerEndsWithMask d then .bool_ else .float32

/-- The per-layer loop of geometry.save2h5: create each registered 2-D layer
dataset (h5py rejects a duplicate name), read its data under the box in one
shot and write it (h5py rejects a shape mismatch with the (l, w) allocation). -/
def geomWriteLoop (fs : FileSys) (g : geometry) (box : Option Box) (l w : ℕ) :
    List String → List (String × Dset) → Except Err (List (String × Dset))
  | [], dss => .ok dss
  | d :: rest, dss =>
      if (lookupD dss d).isSome then .error (.duplicateDataset d)
      else
        match geometry.read fs g d box with
        | .error e => .error e
        | .ok (data, _) =>
            if dimsB data l w then
              geomWriteLoop fs g box l w rest (dss ++ [(d, .d2 (geomDType d) data)])
            else .error .shapeMismatch

/-- The derived-layer step of geometry.save2h5: when the named layer is not
registered, attempt the derived computation and write the dataset only when it
is non-None. -/
def derivedStep (dss : List (String × Dset)) (dsNames : List String) (name : String)
    (data? : Option Raster) : Except Err (List (String × Dset)) :=
  if name ∈ dsNames then .ok dss
  else
    match data? with
    | none => .ok dss
    | some data => createDataset dss name (.d2 .float32 data)

/-- geometry.save2h5(outputFile, access_mode, box): a no-op returning None for
an empty layer registry; otherwise open the container, create the group, write
every registered layer, attempt the two derived layers, and attach the
consolidated attributes.  Returns None or the output path with the final
container state. -/
def geometry.save2h5 (fs : FileSys) (g : geometry) (outputFile mode : String)
    (box : Option Box) (prior : Option H5File) :
    Except Err (Option (String × H5File)) :=
  if g.datasetDict.isEmpty then .ok none
  else
    match h5open mode prior with
    | .error e => .error e
    | .ok f0 =>
        if (lookupD f0.groups g.name).isSome then .error (.duplicateGroup g.name)
        else
          let dsNames := g.datasetDict.map Prod.fst
          match geometry.get_size fs g box with
          | .error e => .error e
          | .ok (l, w) =>
              match geomWriteLoop fs g box l w dsNames [] with
              | .error e => .error e
              | .ok dss =>
                  match derivedStep dss dsNames "incidenceAngle"
                      (geometry.get_incidenceAngle fs g box) with
                  | .error e => .error e
                  | .ok dssA =>
                      match derivedStep dssA dsNames "slantRangeDistance"
                          (geometry.get_slantRangeDistance fs g box) with
                      | .error e => .error e
                      | .ok dssB =>
                          match geometry.get_metadata fs g (geometryDatasetNames.headD "") with
                          | .error e => .error e
                          | .ok (md, _) =>
                              .ok (some (outputFile,
                                ⟨f0.groups ++
                                  [(g.name, ⟨dssB, subset_attribute fs md box⟩)]⟩))

/-!  The platformTrack class and its pair records. -/

/-- Modelled from the spec: the pair-record class consumed by platformTrack
(carrying a platform/track tag, a per-family file registry and cached
length/width fields) is not part of the given source file. -/
structure pairRecord where
  platform_track : String
  datasetDict : List (String × String)
  length : ℕ
  width : ℕ
deriving DecidableEq, Repr

/-- Modelled from the spec: the pair record's metadata accessor for a family
reads that family's file attribute set and exposes the file path and its
integer LENGTH and WIDTH. -/
def pairRecord.get_metadata (fs : FileSys) (p : pairRecord) (family : String) :
    Except Err (String × ℕ × ℕ) :=
  match lookupD p.datasetDict family with
  | none => .error (.datasetNotFound family)
  | some file =>
      match fs.attrOf file with
      | none => .error (.readError file)
      | some md =>
          match getNatAttr md "LENGTH" with
          | .error e => .error e
          | .ok l =>
              match getNatAttr md "WIDTH" with
              | .error e => .error e
              | .ok w => .ok (file, l, w)

/-- The platformTrack class: the member pairs of one platform/track label. -/
structure platformTrack where
  pairs : List ((String × String) × pairRecord)
deriving DecidableEq, Repr

/-- platformTrack.getSize: collect every member pair's cached length and width
and take the median of each. -/
def platformTrack.getSize (pt : platformTrack) : ℚ × ℚ :=
  let ls := pt.pairs.foldl (fun acc q => acc ++ [q.2.length]) []
  let ws := pt.pairs.foldl (fun acc q => acc ++ [q.2.width]) []
  (median ls, median ws)

/-- The accumulator loop of platformTrack.getSize_geometry: read each pair's
metadata for the family, keep the pair when its length is nonzero and its file
was not already contributed, and accumulate kept keys, files, lengths and
widths. -/
def getSizeGeomLoop (fs : FileSys) (family : String) :
    List ((String × String) × pairRecord) →
      List (String × String) → List String → List ℕ → List ℕ →
        Except Err (List (String × String) × List String × List ℕ × List ℕ)
  | [], p2, fls, ls, ws => .ok (p2, fls, ls, ws)
  | (k, p) :: rest, p2, fls, ls, ws =>
      match pairRecord.get_metadata fs p family with
      | .error e => .error e
      | .ok (file, l, w) =>
          if l ≠ 0 ∧ file ∉ fls then
            getSizeGeomLoop fs family rest (p2 ++ [k]) (fls ++ [file]) (ls ++ [l]) (ws ++ [w])
          else getSizeGeomLoop fs family rest p2 fls ls ws

/-- platformTrack.getSize_geometry(dsName): run the filter loop over the member
pairs and return the kept keys with the median length and width of the kept
pairs. -/
def platformTrack.getSize_geometry (fs : FileSys) (pt : platformTrack) (family : String) :
    Except Err (List (String × String) × ℚ × ℚ) :=
  match getSizeGeomLoop fs family pt.pairs [] [] [] [] with
  | .error e => .error e
  | .ok (p2, _, ls, ws) => .ok (p2, median ls, median ws)

/-- The spec-side filter of getSize_geometry, written directly from the claim:
drop every record whose length is zero and every record whose file was already
contributed by an earlier kept record. -/
def specKeptRecords :
    List ((String × String) × String × ℕ × ℕ) → List String →
      List ((String × String) × String × ℕ × ℕ)
  | [], _ => []
  | r :: rest, seen =>
      if r.2.2.1 ≠ 0 ∧ r.2.1 ∉ seen then r :: specKeptRecords rest (seen ++ [r.2.1])
      else specKeptRecords rest seen

/-!  Derived helper views used by theorem statements. -/

/-- Whether ifgram.read succeeds for a family and returns a raster of the given
dimensions. -/
def readOkDims (fs : FileSys) (obj : ifgram) (d : String) (box : Option Box) (l w : ℕ) :
    Bool :=
  match ifgram.read fs obj d box with
  | .ok (r, _) => dimsB r l w
  | .error _ => false

/-- The raster produced by a successful ifgram.read (empty on failure). -/
def readData (fs : FileSys) (obj : ifgram) (d : String) (box : Option Box) : Raster :=
  match ifgram.read fs obj d box with
  | .ok x => x.1
  | .error _ => []

/-- The value produced by a successful ifgram.get_perp_baseline (0 on failure). -/
def bperpD (fs : FileSys) (obj : ifgram) : ℚ :=
  match ifgram.get_perp_baseline fs obj with
  | .ok b => b
  | .error _ => 0

/-- Range update of a list: write the given values at consecutive positions
starting at i (the h5py slice assignments of the per-pair loop). -/
def setRange {α : Type} : List α → ℕ → List α → List α
  | s, _, [] => s
  | s, i, x :: xs => setRange (s.set i x) (i + 1) xs

/-!  Concrete file-system and object instances used by the witnesses. -/

/-- A small concrete environment: two interferometric pairs (unwrapPhase and
coherence rasters of size 2 by 2) plus one geometry layer file. -/
def fsA : FileSys :=
  ⟨fun p =>
      if p = "u1" then
        some [("LENGTH", "2"), ("WIDTH", "2"),
              ("P_BASELINE_TOP_HDR", "1"), ("P_BASELINE_BOTTOM_HDR", "3")]
      else if p = "u2" then
        some [("LENGTH", "2"), ("WIDTH", "2"),
              ("P_BASELINE_TOP_HDR", "2"), ("P_BASELINE_BOTTOM_HDR", "4")]
      else if p = "c1" then some [("LENGTH", "2"), ("WIDTH", "2")]
      else if p = "c2" then some [("LENGTH", "2"), ("WIDTH", "2")]
      else if p = "g1" then some [("LENGTH", "2"), ("WIDTH", "2")]
      else none,
    fun p =>
      if p = "u1" then some [[1, 2], [3, 4]]
      else if p = "u2" then some [[5, 6], [7, 8]]
      else if p = "c1" then some [[1, 0], [0, 1]]
      else if p = "c2" then some [[0, 1], [1, 0]]
      else none,
    fun p _ => if p = "g1" then some [[9, 9], [9, 9]] else none,
    fun _ => false,
    fun a _ => a,
    fun _ => [[1, 1], [1, 1]],
    fun _ => [[2, 2], [2, 2]]⟩

/-- Like fsA, except that the raster behind path c2 cannot be read. -/
def fsE : FileSys :=
  ⟨fsA.attrOf,
    fun p =>
      if p = "u1" then some [[1, 2], [3, 4]]
      else if p = "u2" then some [[5, 6], [7, 8]]
      else if p = "c1" then some [[1, 0], [0, 1]]
      else none,
    fsA.rasterOfEpoch, fsA.pathExists, fsA.subsetAttr, fsA.rangeDistance,
    fsA.incidenceAngleOf⟩

/-- First concrete pair of fsA. -/
def ifg1 : ifgram :=
  ⟨"ifgram", "20160524", "20160530",
    [("unwrapPhase", "u1"), ("coherence", "c1")], none, none, none⟩

/-- Second concrete pair of fsA. -/
def ifg2 : ifgram :=
  ⟨"ifgram", "20160524", "20160605",
    [("unwrapPhase", "u2"), ("coherence", "c2")], none, none, none⟩

/-- A concrete two-pair stack over fsA. -/
def stA : ifgramStack :=
  ⟨"ifgramStack",
    [(("20160524", "20160530"), ifg1), (("20160524", "20160605"), ifg2)]⟩

/-- A concrete geometry record with one height layer. -/
def geomA : geometry := ⟨"geometry", some "isce", [("height", "g1")], none⟩

/-- A concrete geometry record whose reference metadata carries Y_FIRST. -/
def geomY : geometry :=
  ⟨"geometry", some "isce", [("height", "g1")], some [("Y_FIRST", "10")]⟩

/-- A concrete geometry record with an empty layer registry. -/
def geomE : geometry := ⟨"geometry", none, [], none⟩

/-- A concrete environment for the processor-inference witnesses: a.unw has an
isce sidecar, b.unw carries a PROCESSOR attribute, g.grd carries both a
PROCESSOR attribute and an isce sidecar. -/
def fsB : FileSys :=
  ⟨fun p =>
      if p = "a.unw" then some [("LENGTH", "1"), ("WIDTH", "1")]
      else if p = "b.unw" then
        some [("LENGTH", "1"), ("WIDTH", "1"), ("PROCESSOR", "doris")]
      else if p = "g.grd" then
        some [("LENGTH", "1"), ("WIDTH", "1"), ("PROCESSOR", "roipac")]
      else none,
    fun _ => none,
    fun _ _ => none,
    fun p => p == "a.unw.xml" || p == "g.grd.xml",
    fun a _ => a,
    fun _ => [],
    fun _ => []⟩

/-- Ifgram whose reference file has an isce sidecar in fsB. -/
def objA : ifgram :=
  ⟨"ifgram", "20170101", "20170113", [("unwrapPhase", "a.unw")], none, none, none⟩

/-- Ifgram whose reference file has only a PROCESSOR attribute in fsB. -/
def objB : ifgram :=
  ⟨"ifgram", "20170101", "20170113", [("unwrapPhase", "b.unw")], none, none, none⟩

/-- Geometry record over g.grd in fsB. -/
def geomB : geometry := ⟨"geometry", none, [("height", "g.grd")], none⟩

/-- A concrete environment for the missing-attribute witnesses: each file lacks
one required attribute. -/
def fsC : FileSys :=
  ⟨fun p =>
      if p = "x1" then some [("WIDTH", "2")]
      else if p = "x2" then some [("LENGTH", "2")]
      else if p = "x3" then
        some [("LENGTH", "2"), ("WIDTH", "2"), ("P_BASELINE_BOTTOM_HDR", "1")]
      else if p = "x4" then
        some [("LENGTH", "2"), ("WIDTH", "2"), ("P_BASELINE_TOP_HDR", "1")]
      else none,
    fun _ => none, fun _ _ => none, fun _ => false, fun a _ => a,
    fun _ => [], fun _ => []⟩

/-- Ifgram over a file lacking LENGTH. -/
def objX1 : ifgram :=
  ⟨"ifgram", "20170101", "20170113", [("unwrapPhase", "x1")], none, none, none⟩

/-- Ifgram over a file lacking WIDTH. -/
def objX2 : ifgram :=
  ⟨"ifgram", "20170101", "20170113", [("unwrapPhase", "x2")], none, none, none⟩

/-- Ifgram over a file lacking the top baseline attribute. -/
def objX3 : ifgram :=
  ⟨"ifgram", "20170101", "20170113", [("unwrapPhase", "x3")], none, none, none⟩

/-- Ifgram over a file lacking the bottom baseline attribute. -/
def objX4 : ifgram :=
  ⟨"ifgram", "20170101", "20170113", [("unwrapPhase", "x4")], none, none, none⟩

/-- A concrete environment for the getSize_geometry witness: fA reports length
100, fB reports length 0. -/
def fsD : FileSys :=
  ⟨fun p =>
      if p = "fA" then some [("LENGTH", "100"), ("WIDTH", "50")]
      else if p = "fB" then some [("LENGTH", "0"), ("WIDTH", "50")]
      else none,
    fun _ => none, fun _ _ => none, fun _ => false, fun a _ => a,
    fun _ => [], fun _ => []⟩

/-- Three member pairs: one over fA, one over the zero-length fB, and a
duplicate over fA. -/
def ptD : platformTrack :=
  ⟨[(("a", "b"), ⟨"t1", [("height", "fA")], 0, 0⟩),
    (("c", "d"), ⟨"t1", [("height", "fB")], 0, 0⟩),
    (("e", "f"), ⟨"t1", [("height", "fA")], 0, 0⟩)]⟩

/-!  Helper lemmas about the list-level primitives. -/

theorem lookupD_append_of_none {α : Type} (l1 l2 : List (String × α)) (k : String)
    (h : lookupD l1 k = none) : lookupD (l1 ++ l2) k = lookupD l2 k := by
  induction l1 with
  | nil => rfl
  | cons a rest ih =>
      obtain ⟨k', v⟩ := a
      simp only [List.cons_append, lookupD] at h ⊢
      by_cases hk : k' = k
      · rw [if_pos hk] at h
        exact absurd h (by simp)
      · rw [if_neg hk] at h ⊢
        exact ih h

theorem lookupD_append_of_some {α : Type} (l1 l2 : List (String × α)) (k : String) (v : α)
    (h : lookupD l1 k = some v) : lookupD (l1 ++ l2) k = some v := by
  induction l1 with
  | nil => exact absurd h (by simp [lookupD])
  | cons a rest ih =>
      obtain ⟨k', v'⟩ := a
      simp only [List.cons_append, lookupD] at h ⊢
      by_cases hk : k' = k
      · rw [if_pos hk] at h ⊢
        exact h
      · rw [if_neg hk] at h ⊢
        exact ih h

theorem lookupD_eq_none_of_not_mem {α : Type} (l : List (String × α)) (k : String)
    (h : k ∉ l.map Prod.fst) : lookupD l k = none := by
  induction l with
  | nil => rfl
  | cons a rest ih =>
      obtain ⟨k', v⟩ := a
      simp only [List.map_cons, List.mem_cons] at h
      push_neg at h
      have h1 : ¬ k' = k := fun hk => h.1 hk.symm
      simp only [lookupD, if_neg h1]
      exact ih h.2

theorem lookupD_map_mk {α : Type} (F : String → α) (ds : List String) (x : String) :
    lookupD (ds.map fun d => (d, F d)) x = if x ∈ ds then some (F x) else none := by
  induction ds with
  | nil => simp [lookupD]
  | cons d rest ih =>
      simp only [List.map_cons, lookupD]
      by_cases hd : d = x
      · subst hd
        simp
      · rw [if_neg hd, ih]
        by_cases hx : x ∈ rest
        · simp [List.mem_cons, hx]
        · simp [List.mem_cons, hx, Ne.symm hd]

theorem isEmpty_false_of_ne_nil {α : Type} (l : List α) (h : l ≠ []) :
    l.isEmpty = false := by
  cases l with
  | nil => exact absurd rfl h
  | cons a rest => rfl

theorem dimsB_iff (r : Raster) (l w : ℕ) :
    dimsB r l w = true ↔ r.length = l ∧ ∀ row ∈ r, row.length = w := by
  simp [dimsB, List.all_eq_true]

theorem list_set_append_cons {α : Type} (pre : List α) (y : α) (rest : List α) (x : α) :
    (pre ++ y :: rest).set pre.length x = pre ++ x :: rest := by
  induction pre with
  | nil => rfl
  | cons p ps ih => exact congrArg (List.cons p) ih

theorem setRange_append_len {α : Type} :
    ∀ (upd pre rest : List α), rest.length = upd.length →
      setRange (pre ++ rest) pre.length upd = pre ++ upd := by
  intro upd
  induction upd with
  | nil =>
      intro pre rest h
      have : rest = [] := List.eq_nil_of_length_eq_zero h
      simp [this, setRange]
  | cons x xs ih =>
      intro pre rest h
      cases rest with
      | nil => simp at h
      | cons r0 rest' =>
          simp only [List.length_cons] at h
          have h' : rest'.length = xs.length := by omega
          simp only [setRange, list_set_append_cons]
          have h2 : pre ++ x :: rest' = (pre ++ [x]) ++ rest' := by simp
          have h3 : pre.length + 1 = (pre ++ [x]).length := by simp
          rw [h2, h3, ih (pre ++ [x]) rest' h']
          simp

theorem setRange_zero {α : Type} (s upd : List α) (h : s.length = upd.length) :
    setRange s 0 upd = upd := by
  have h0 := setRange_append_len upd ([] : List α) s h
  exact h0

theorem foldl_push_eq_map {α β : Type} (f : α → β) :
    ∀ (l : List α) (acc : List β),
      l.foldl (fun a x => a ++ [f x]) acc = acc ++ l.map f := by
  intro l
  induction l with
  | nil =>
      intro acc
      simp
  | cons x rest ih =>
      intro acc
      simp only [List.foldl_cons, List.map_cons, ih]
      simp

theorem lookupD_append_single {α : Type} (dss : List (String × α)) (d : String) (v : α)
    (x : String) (hx : ¬ d = x) : lookupD (dss ++ [(d, v)]) x = lookupD dss x := by
  cases hc : lookupD dss x with
  | some v' => exact lookupD_append_of_some _ _ _ _ hc
  | none =>
      rw [lookupD_append_of_none _ _ _ hc]
      simp [lookupD, hx]

/-!  Helper lemmas about the fallible read views. -/

theorem readOkDims_elim (fs : FileSys) (o : ifgram) (d : String) (box : Option Box)
    (l w : ℕ) (h : readOkDims fs o d box l w = true) :
    ∃ r a, ifgram.read fs o d box = .ok (r, a) ∧ dimsB r l w = true := by
  unfold readOkDims at h
  cases hr : ifgram.read fs o d box with
  | error e =>
      rw [hr] at h
      exact absurd h (by simp)
  | ok x =>
      obtain ⟨r, a⟩ := x
      rw [hr] at h
      exact ⟨r, a, rfl, h⟩

theorem exOk_elim {ε α : Type} (x : Except ε α) (h : exOk x = true) : ∃ v, x = .ok v := by
  cases x with
  | ok v => exact ⟨v, rfl⟩
  | error e => simp [exOk] at h

theorem readData_eq (fs : FileSys) (o : ifgram) (d : String) (box : Option Box)
    (r : Raster) (a : AttrDict) (h : ifgram.read fs o d box = .ok (r, a)) :
    readData fs o d box = r := by
  unfold readData
  rw [h]

theorem bperpD_eq (fs : FileSys) (o : ifgram) (b : ℚ)
    (h : ifgram.get_perp_baseline fs o = .ok b) : bperpD fs o = b := by
  unfold bperpD
  rw [h]

/-!  The per-pair fill loop. -/

theorem fillSlices_ok (fs : FileSys) (box : Option Box) (l w : ℕ) (d : String) :
    ∀ (objs : List ifgram) (i : ℕ) (stack : List Raster) (bperp : List ℚ),
      (∀ o ∈ objs, readOkDims fs o d box l w = true) →
      (∀ o ∈ objs, exOk (ifgram.get_perp_baseline fs o) = true) →
      fillSlices fs box l w d objs i stack bperp =
        .ok (setRange stack i (objs.map (fun o => readData fs o d box)),
             setRange bperp i (objs.map (fun o => bperpD fs o))) := by
  intro objs
  induction objs with
  | nil =>
      intro i stack bperp _ _
      rfl
  | cons o rest ih =>
      intro i stack bperp hr hb
      obtain ⟨r, a, hre, hdim⟩ :=
        readOkDims_elim fs o d box l w (hr o (List.mem_cons_self o rest))
      obtain ⟨b, hbe⟩ :=
        exOk_elim _ (hb o (List.mem_cons_self o rest))
      simp only [fillSlices, hre, hdim, if_true, hbe, List.map_cons, setRange]
      rw [readData_eq fs o d box r a hre, bperpD_eq fs o b hbe]
      exact ih (i + 1) (stack.set i r) (bperp.set i b)
        (fun o' ho' => hr o' (List.mem_cons_of_mem o ho'))
        (fun o' ho' => hb o' (List.mem_cons_of_mem o ho'))

theorem fillSlices_err (fs : FileSys) (box : Option Box) (l w : ℕ) (d : String) :
    ∀ (ppre : List ifgram) (bad : ifgram) (post : List ifgram) (i : ℕ)
      (stack : List Raster) (bperp : List ℚ) (e : Err),
      (∀ o ∈ ppre, readOkDims fs o d box l w = true) →
      (∀ o ∈ ppre, exOk (ifgram.get_perp_baseline fs o) = true) →
      ifgram.read fs bad d box = .error e →
      fillSlices fs box l w d (ppre ++ bad :: post) i stack bperp = .error e := by
  intro ppre
  induction ppre with
  | nil =>
      intro bad post i stack bperp e _ _ hbad
      simp only [List.nil_append, fillSlices, hbad]
  | cons o rest ih =>
      intro bad post i stack bperp e hr hb hbad
      obtain ⟨r, a, hre, hdim⟩ :=
        readOkDims_elim fs o d box l w (hr o (List.mem_cons_self o rest))
      obtain ⟨b, hbe⟩ :=
        exOk_elim _ (hb o (List.mem_cons_self o rest))
      simp only [List.cons_append, fillSlices, hre, hdim, if_true, hbe]
      exact ih bad post (i + 1) (stack.set i r) (bperp.set i b) e
        (fun o' ho' => hr o' (List.mem_cons_of_mem o ho'))
        (fun o' ho' => hb o' (List.mem_cons_of_mem o ho')) hbad

/-!  The per-family loop. -/

theorem writeFamilies_append (fs : FileSys) (box : Option Box) (l w n : ℕ)
    (objs : List ifgram) (hn : objs.length = n) :
    ∀ (pre rest : List String) (dss : List (String × Dset)) (bperp : List ℚ),
      bperp.length = n →
      pre.Nodup →
      (∀ d ∈ pre, lookupD dss d = none) →
      (∀ o ∈ objs, ∀ d ∈ pre, readOkDims fs o d box l w = true) →
      (∀ o ∈ objs, exOk (ifgram.get_perp_baseline fs o) = true) →
      writeFamilies fs box l w n objs (pre ++ rest) dss bperp =
        writeFamilies fs box l w n objs rest
          (dss ++ pre.map (fun d =>
            (d, Dset.d3 (stackDType d) (objs.map (fun o => readData fs o d box)))))
          (if pre.isEmpty then bperp else objs.map (fun o => bperpD fs o)) := by
  intro pre
  induction pre with
  | nil =>
      intro rest dss bperp _ _ _ _ _
      simp
  | cons d pre' ih =>
      intro rest dss bperp hb hnd hfresh hr hbp
      have hdss : lookupD dss d = none := hfresh d (List.mem_cons_self d pre')
      have hnd' : pre'.Nodup := (List.nodup_cons.1 hnd).2
      have hdnm : d ∉ pre' := (List.nodup_cons.1 hnd).1
      have hfl := fillSlices_ok fs box l w d objs 0 (List.replicate n (zeroRaster l w)) bperp
        (fun o ho => hr o ho d (List.mem_cons_self d pre')) hbp
      rw [setRange_zero _ _ (by simp [hn]), setRange_zero _ _ (by simp [hb, hn])] at hfl
      have hih := ih rest (dss ++ [(d, Dset.d3 (stackDType d)
            (objs.map (fun o => readData fs o d box)))])
          (objs.map (fun o => bperpD fs o)) (by simp [hn]) hnd'
          (fun d' hd' => by
            rw [lookupD_append_single _ _ _ _ (fun hc => hdnm (by rw [hc]; exact hd'))]
            exact hfresh d' (List.mem_cons_of_mem d hd'))
          (fun o ho d' hd' => hr o ho d' (List.mem_cons_of_mem d hd')) hbp
      simp only [List.cons_append, writeFamilies, hdss, Option.isSome_none,
        Bool.false_eq_true, if_false, List.append_eq, hfl, hih]
      cases pre' with
      | nil => simp
      | cons p ps => simp

theorem writeFamilies_ok (fs : FileSys) (box : Option Box) (l w n : ℕ)
    (objs : List ifgram) (hn : objs.length = n)
    (ds : List String) (dss : List (String × Dset)) (bperp : List ℚ)
    (hb : bperp.length = n) (hnd : ds.Nodup)
    (hfresh : ∀ d ∈ ds, lookupD dss d = none)
    (hr : ∀ o ∈ objs, ∀ d ∈ ds, readOkDims fs o d box l w = true)
    (hbp : ∀ o ∈ objs, exOk (ifgram.get_perp_baseline fs o) = true) :
    writeFamilies fs box l w n objs ds dss bperp =
      .ok (dss ++ ds.map (fun d =>
             (d, Dset.d3 (stackDType d) (objs.map (fun o => readData fs o d box)))),
           if ds.isEmpty then bperp else objs.map (fun o => bperpD fs o)) := by
  have h := writeFamilies_append fs box l w n objs hn ds [] dss bperp hb hnd hfresh hr hbp
  simp only [List.append_nil] at h
  rw [h]
  rfl

/-!  Inversion of ifgramStack.get_size. -/

theorem stack_get_size_len (fs : FileSys) (st : ifgramStack) (box : Option Box)
    (n l w : ℕ) (h : ifgramStack.get_size fs st box = .ok (n, l, w)) :
    n = st.pairsDict.length := by
  unfold ifgramStack.get_size at h
  split at h
  · simp at h
  · split at h
    · simp at h
    · split at h
      · simp only [Except.ok.injEq, Prod.mk.injEq] at h
        exact h.1.symm
      · simp only [Except.ok.injEq, Prod.mk.injEq] at h
        exact h.1.symm

theorem stack_get_size_box (fs : FileSys) (st : ifgramStack)
    (q0 : (String × String) × ifgram) (rest : List ((String × String) × ifgram))
    (hpd : st.pairsDict = q0 :: rest) (l0 w0 : ℕ)
    (hsz0 : ifgram.get_size fs q0.2 = .ok (l0, w0)) (bx0 by0 bx1 by1 : ℕ) :
    ifgramStack.get_size fs st (some (bx0, by0, bx1, by1)) =
      .ok (st.pairsDict.length, by1 - by0, bx1 - bx0) := by
  obtain ⟨nm, pd⟩ := st
  simp only at hpd
  subst hpd
  simp [ifgramStack.get_size, hsz0]

theorem stack_get_size_none (fs : FileSys) (st : ifgramStack)
    (q0 : (String × String) × ifgram) (rest : List ((String × String) × ifgram))
    (hpd : st.pairsDict = q0 :: rest) (l0 w0 : ℕ)
    (hsz0 : ifgram.get_size fs q0.2 = .ok (l0, w0)) :
    ifgramStack.get_size fs st none = .ok (st.pairsDict.length, l0, w0) := by
  obtain ⟨nm, pd⟩ := st
  simp only at hpd
  subst hpd
  simp [ifgramStack.get_size, hsz0]

/-!  Name preservation of the geometry layer loop. -/

theorem geomWriteLoop_lookup (fs : FileSys) (g : geometry) (box : Option Box) (l w : ℕ) :
    ∀ (ds : List String) (dss dss' : List (String × Dset)) (x : String),
      geomWriteLoop fs g box l w ds dss = .ok dss' → x ∉ ds →
      lookupD dss' x = lookupD dss x := by
  intro ds
  induction ds with
  | nil =>
      intro dss dss' x h hx
      simp only [geomWriteLoop, Except.ok.injEq] at h
      rw [← h]
  | cons d rest ih =>
      intro dss dss' x h hx
      have hdx : ¬ d = x := fun hc => hx (by rw [← hc]; exact List.mem_cons_self d rest)
      have hx' : x ∉ rest := fun hc => hx (List.mem_cons_of_mem d hc)
      simp only [geomWriteLoop] at h
      split at h
      · simp at h
      · split at h
        · simp at h
        · split at h
          · rw [ih _ _ x h hx', lookupD_append_single _ _ _ _ hdx]
          · simp at h

/-!  The getSize_geometry filter loop against the spec-side filter. -/

theorem getSizeGeomLoop_spec (fs : FileSys) (family : String) :
    ∀ (qs : List ((String × String) × pairRecord)) (infoF : pairRecord → String × ℕ × ℕ)
      (p2 : List (String × String)) (fls : List String) (ls ws : List ℕ),
      (∀ q ∈ qs, pairRecord.get_metadata fs q.2 family = .ok (infoF q.2)) →
      getSizeGeomLoop fs family qs p2 fls ls ws =
        .ok (p2 ++ (specKeptRecords (qs.map fun q => (q.1, infoF q.2)) fls).map
               (fun r => r.1),
             fls ++ (specKeptRecords (qs.map fun q => (q.1, infoF q.2)) fls).map
               (fun r => r.2.1),
             ls ++ (specKeptRecords (qs.map fun q => (q.1, infoF q.2)) fls).map
               (fun r => r.2.2.1),
             ws ++ (specKeptRecords (qs.map fun q => (q.1, infoF q.2)) fls).map
               (fun r => r.2.2.2)) := by
  intro qs
  induction qs with
  | nil =>
      intro infoF p2 fls ls ws _
      simp [getSizeGeomLoop, specKeptRecords]
  | cons q rest ih =>
      intro infoF p2 fls ls ws hmd
      obtain ⟨k, p⟩ := q
      have hq := hmd (k, p) (List.mem_cons_self _ rest)
      have hrest : ∀ q ∈ rest, pairRecord.get_metadata fs q.2 family = .ok (infoF q.2) :=
        fun q hqm => hmd q (List.mem_cons_of_mem _ hqm)
      rcases hfl : infoF p with ⟨file, l, w⟩
      rw [hfl] at hq
      simp only [getSizeGeomLoop, hq, List.map_cons, hfl, specKeptRecords]
      by_cases hc : l ≠ 0 ∧ file ∉ fls
      · rw [if_pos hc, if_pos hc,
          ih infoF (p2 ++ [k]) (fls ++ [file]) (ls ++ [l]) (ws ++ [w]) hrest]
        simp
      · rw [if_neg hc, if_neg hc, ih infoF p2 fls ls ws hrest]

theorem lookupD_map_mk_none {α : Type} (F : String → α) (ds : List String) (x : String)
    (hx : x ∉ ds) : lookupD (ds.map fun d => (d, F d)) x = none := by
  rw [lookupD_map_mk]
  exact if_neg hx

/-!  Success characterization of ifgramStack.save2h5. -/

theorem save2h5_stack_ok (fs : FileSys) (st : ifgramStack) (out mode : String)
    (box : Option Box) (prior : Option H5File) (f0 : H5File)
    (q0 : (String × String) × ifgram) (qrest : List ((String × String) × ifgram))
    (hpd : st.pairsDict = q0 :: qrest)
    (dsNames : List String) (hds : dsNames = q0.2.datasetDict.map Prod.fst)
    (hne : dsNames ≠ []) (hnd : dsNames.Nodup)
    (hr1 : "date" ∉ dsNames) (hr2 : "bperp" ∉ dsNames) (hr3 : "dropIfgram" ∉ dsNames)
    (hopen : h5open mode prior = .ok f0)
    (hgrp : lookupD f0.groups st.name = none)
    (n l w : ℕ) (hsz : ifgramStack.get_size fs st box = .ok (n, l, w))
    (hread : ∀ q ∈ st.pairsDict, ∀ d ∈ dsNames, readOkDims fs q.2 d box l w = true)
    (hbp : ∀ q ∈ st.pairsDict, exOk (ifgram.get_perp_baseline fs q.2) = true)
    (md : AttrDict) (pc : String) (hmd : ifgramStack.get_metadata fs st = .ok (md, pc)) :
    ifgramStack.save2h5 fs st out mode box prior =
      .ok (out, ⟨f0.groups ++ [(st.name,
        ⟨(dsNames.map fun d => (d, Dset.d3 (stackDType d)
            (st.pairsDict.map fun q => readData fs q.2 d box)))
          ++ [("date", Dset.d2str (st.pairsDict.map Prod.fst)),
              ("bperp", Dset.d1 (st.pairsDict.map fun q => bperpD fs q.2)),
              ("dropIfgram", Dset.d1b (List.replicate n true))],
          subset_attribute fs md box⟩)]⟩) := by
  have hn := stack_get_size_len fs st box n l w hsz
  have hie := isEmpty_false_of_ne_nil _ hne
  have hwf := writeFamilies_ok fs box l w n (st.pairsDict.map Prod.snd)
    (by simp [hn]) dsNames [] (List.replicate n 0) (by simp) hnd
    (fun d _ => rfl)
    (fun o ho d hd => by
      obtain ⟨q, hq, hqe⟩ := List.mem_map.1 ho
      rw [← hqe]
      exact hread q hq d hd)
    (fun o ho => by
      obtain ⟨q, hq, hqe⟩ := List.mem_map.1 ho
      rw [← hqe]
      exact hbp q hq)
  rw [hpd] at hwf
  simp only [ifgramStack.save2h5, hopen, hgrp, Option.isSome_none, Bool.false_eq_true,
    if_false, hpd, ← hds, hie, hsz, hwf, List.nil_append, createDataset, bperpStep,
    hmd, lookupD_map_mk, hr1, hr2, hr3, ite_false]
  simp [lookupD_append_of_none, lookupD_map_mk_none, hr2, hr3, lookupD, List.map_map,
    List.append_assoc, Function.comp_def]

/-!  Lookup through setKV and the tag-injection step. -/

theorem lookupD_setKV_self {α : Type} (m : List (String × α)) (k : String) (v : α) :
    lookupD (setKV m k v) k = some v := by
  induction m with
  | nil => simp [setKV, lookupD]
  | cons a rest ih =>
      obtain ⟨k', v'⟩ := a
      by_cases hk : k' = k
      · simp [setKV, hk, lookupD]
      · simp only [setKV, hk, if_false, lookupD]
        exact ih

theorem lookupD_setKV_ne {α : Type} (m : List (String × α)) (k k' : String) (v : α)
    (h : ¬ k = k') : lookupD (setKV m k v) k' = lookupD m k' := by
  induction m with
  | nil => simp [setKV, lookupD, h]
  | cons a rest ih =>
      obtain ⟨k0, v0⟩ := a
      by_cases hk : k0 = k
      · simp only [setKV, hk, if_true, lookupD]
        rw [if_neg h, if_neg h]
      · simp only [setKV, hk, if_false, lookupD]
        by_cases hk0 : k0 = k'
        · rw [if_pos hk0, if_pos hk0]
        · rw [if_neg hk0, if_neg hk0]
          exact ih

theorem lookupD_tagStep_ne (m : AttrDict) (key : String) (t : Option String) (k : String)
    (h : ¬ key = k) : lookupD (tagStep m key t) k = lookupD m k := by
  cases t with
  | none => rfl
  | some s =>
      by_cases hs : s = ""
      · simp [tagStep, hs]
      · simp only [tagStep, hs, if_false]
        exact lookupD_setKV_ne m key k s h

/-!  Claim theorems. -/

/-- C8: platformTrack.getSize computes the group's representative size as the
median of the member pairs' lengths and the median of their widths; in
particular member sizes [(100,100),(100,100),(101,100)] resolve to the group
size (100,100). -/
theorem median_group_size :
    (∀ pt : platformTrack,
      platformTrack.getSize pt =
        (median (pt.pairs.map fun q => q.2.length),
         median (pt.pairs.map fun q => q.2.width))) ∧
    platformTrack.getSize
        ⟨[(("20160524", "20160530"), ⟨"t", [], 100, 100⟩),
          (("20160524", "20160605"), ⟨"t", [], 100, 100⟩),
          (("20160530", "20160605"), ⟨"t", [], 101, 100⟩)]⟩ = (100, 100) := by
  constructor
  · intro pt
    unfold platformTrack.getSize
    rw [foldl_push_eq_map, foldl_push_eq_map]
    simp
  · decide

/-- C6: for a geometry record whose dataset mapping is empty, geometry.save2h5
returns no output path and creates no file: the write is a no-op, not an
error. -/
theorem empty_geometry_noop (fs : FileSys) (g : geometry) (out mode : String)
    (box : Option Box) (prior : Option H5File) (h : g.datasetDict = []) :
    geometry.save2h5 fs g out mode box prior = .ok none := by
  simp [geometry.save2h5, h]

/-- Witness for C6 at a concrete empty geometry record. -/
theorem empty_geometry_noop_witness :
    geomE.datasetDict = [] ∧
    geometry.save2h5 fsA geomE "geometryRadar.h5" "w" none none = .ok none :=
  ⟨rfl, empty_geometry_noop fsA geomE "geometryRadar.h5" "w" none none rfl⟩

/-- C9: ifgram.get_size fails with MissingAttributeError when LENGTH or WIDTH
is absent from the reference file's attribute set, and ifgram.get_perp_baseline
fails with MissingAttributeError when the top or the bottom perpendicular
baseline attribute is absent; the error is the operation's result (fatal, not
retried). -/
theorem missing_attribute_errors (fs : FileSys) (obj : ifgram) (file : String)
    (md : AttrDict)
    (hf : lookupD obj.datasetDict "unwrapPhase" = some file)
    (hmd : fs.attrOf file = some md) :
    (lookupD md "LENGTH" = none →
      ifgram.get_size fs obj = .error (.missingAttribute "LENGTH")) ∧
    (∀ s L, lookupD md "LENGTH" = some s → parseNat s = some L →
      lookupD md "WIDTH" = none →
      ifgram.get_size fs obj = .error (.missingAttribute "WIDTH")) ∧
    (lookupD md "P_BASELINE_TOP_HDR" = none →
      ifgram.get_perp_baseline fs obj = .error (.missingAttribute "P_BASELINE_TOP_HDR")) ∧
    (∀ s b, lookupD md "P_BASELINE_TOP_HDR" = some s → parseDec s = some b →
      lookupD md "P_BASELINE_BOTTOM_HDR" = none →
      ifgram.get_perp_baseline fs obj = .error (.missingAttribute "P_BASELINE_BOTTOM_HDR")) := by
  refine ⟨?_, ?_, ?_, ?_⟩
  · intro hL
    simp [ifgram.get_size, ifgramDatasetNames, hf, hmd, getNatAttr, hL]
  · intro s L hs hsL hW
    simp [ifgram.get_size, ifgramDatasetNames, hf, hmd, getNatAttr, hs, hsL, hW]
  · intro hT
    simp [ifgram.get_perp_baseline, ifgramDatasetNames, hf, hmd, getFloatAttr, hT]
  · intro s b hs hsb hB
    simp [ifgram.get_perp_baseline, ifgramDatasetNames, hf, hmd, getFloatAttr, hs, hsb, hB]

/-- Witness for C9: four concrete files, each lacking one required attribute. -/
theorem missing_attribute_errors_witness :
    ifgram.get_size fsC objX1 = .error (.missingAttribute "LENGTH") ∧
    ifgram.get_size fsC objX2 = .error (.missingAttribute "WIDTH") ∧
    ifgram.get_perp_baseline fsC objX3 = .error (.missingAttribute "P_BASELINE_TOP_HDR") ∧
    ifgram.get_perp_baseline fsC objX4 =
      .error (.missingAttribute "P_BASELINE_BOTTOM_HDR") :=
  ⟨(missing_attribute_errors fsC objX1 "x1" [("WIDTH", "2")]
      (by decide) (by decide)).1 (by decide),
   (missing_attribute_errors fsC objX2 "x2" [("LENGTH", "2")]
      (by decide) (by decide)).2.1 "2" 2 (by decide) (by decide) (by decide),
   (missing_attribute_errors fsC objX3 "x3"
      [("LENGTH", "2"), ("WIDTH", "2"), ("P_BASELINE_BOTTOM_HDR", "1")]
      (by decide) (by decide)).2.2.1 (by decide),
   (missing_attribute_errors fsC objX4 "x4"
      [("LENGTH", "2"), ("WIDTH", "2"), ("P_BASELINE_TOP_HDR", "1")]
      (by decide) (by decide)).2.2.2 "1" 1 (by decide) (by decide) (by decide)⟩

/-- C10: platformTrack.getSize_geometry keeps exactly the member pairs whose
metadata reports a nonzero length and whose file was not already contributed
by an earlier kept pair, and returns the kept keys together with the median
length and median width over the kept pairs only. -/
theorem getSize_geometry_filter (fs : FileSys) (pt : platformTrack) (family : String)
    (infoF : pairRecord → String × ℕ × ℕ)
    (hmd : ∀ q ∈ pt.pairs, pairRecord.get_metadata fs q.2 family = .ok (infoF q.2)) :
    platformTrack.getSize_geometry fs pt family =
      .ok ((specKeptRecords (pt.pairs.map fun q => (q.1, infoF q.2)) []).map (fun r => r.1),
           median ((specKeptRecords (pt.pairs.map fun q => (q.1, infoF q.2)) []).map
             (fun r => r.2.2.1)),
           median ((specKeptRecords (pt.pairs.map fun q => (q.1, infoF q.2)) []).map
             (fun r => r.2.2.2))) := by
  have h := getSizeGeomLoop_spec fs family pt.pairs infoF [] [] [] [] hmd
  simp only [List.nil_append] at h
  simp [platformTrack.getSize_geometry, h]

/-- Witness for C10: of three concrete pairs, the zero-length one and the
duplicate-file one are excluded and the medians are over the single kept pair. -/
theorem getSize_geometry_filter_witness :
    platformTrack.getSize_geometry fsD ptD "height" = .ok ([("a", "b")], 100, 50) := by
  rw [getSize_geometry_filter fsD ptD "height"
    (fun p => if lookupD p.datasetDict "height" = some "fA" then ("fA", 100, 50)
              else ("fB", 0, 50))
    (by decide)]
  decide

/-- C3: with no processor pre-set, ifgram.get_metadata infers the processor by
short-circuit probes in the fixed order sidecar .xml (isce), sidecar .rsc
(roipac), sidecar .par (gamma), extension grd (gmtsar), explicit PROCESSOR
attribute, default isce; geometry.get_metadata uses the same labels but
consults the explicit PROCESSOR attribute before the sidecar probes; in both
classes a pre-set processor is never changed; the embedding is a pure function
of the file state, so the label is deterministic. -/
theorem processor_inference_order (fs : FileSys)
    (obj : ifgram) (file : String) (md : AttrDict)
    (g : geometry) (gfile : String) (gmd : AttrDict)
    (L W gL gW : ℕ)
    (hf : lookupD obj.datasetDict "unwrapPhase" = some file)
    (hmd : fs.attrOf file = some md)
    (hL : getNatAttr md "LENGTH" = .ok L)
    (hW : getNatAttr md "WIDTH" = .ok W)
    (hgf : lookupD g.datasetDict "height" = some gfile)
    (hgmd : fs.attrOf gfile = some gmd)
    (hgL : getNatAttr gmd "LENGTH" = .ok gL)
    (hgW : getNatAttr gmd "WIDTH" = .ok gW) :
    (obj.processor = none → fs.pathExists (file ++ ".xml") = true →
      ∃ m, ifgram.get_metadata fs obj "unwrapPhase" = .ok (m, "isce") ∧
        lookupD m "PROCESSOR" = some "isce") ∧
    (obj.processor = none → fs.pathExists (file ++ ".xml") = false →
      fs.pathExists (file ++ ".rsc") = true →
      ∃ m, ifgram.get_metadata fs obj "unwrapPhase" = .ok (m, "roipac") ∧
        lookupD m "PROCESSOR" = some "roipac") ∧
    (obj.processor = none → fs.pathExists (file ++ ".xml") = false →
      fs.pathExists (file ++ ".rsc") = false → fs.pathExists (file ++ ".par") = true →
      ∃ m, ifgram.get_metadata fs obj "unwrapPhase" = .ok (m, "gamma") ∧
        lookupD m "PROCESSOR" = some "gamma") ∧
    (obj.processor = none → fs.pathExists (file ++ ".xml") = false →
      fs.pathExists (file ++ ".rsc") = false → fs.pathExists (file ++ ".par") = false →
      lastExt file = "grd" →
      ∃ m, ifgram.get_metadata fs obj "unwrapPhase" = .ok (m, "gmtsar") ∧
        lookupD m "PROCESSOR" = some "gmtsar") ∧
    (∀ pv, obj.processor = none → fs.pathExists (file ++ ".xml") = false →
      fs.pathExists (file ++ ".rsc") = false → fs.pathExists (file ++ ".par") = false →
      lastExt file ≠ "grd" → lookupD md "PROCESSOR" = some pv →
      ∃ m, ifgram.get_metadata fs obj "unwrapPhase" = .ok (m, pv) ∧
        lookupD m "PROCESSOR" = some pv) ∧
    (obj.processor = none → fs.pathExists (file ++ ".xml") = false →
      fs.pathExists (file ++ ".rsc") = false → fs.pathExists (file ++ ".par") = false →
      lastExt file ≠ "grd" → lookupD md "PROCESSOR" = none →
      ∃ m, ifgram.get_metadata fs obj "unwrapPhase" = .ok (m, "isce") ∧
        lookupD m "PROCESSOR" = some "isce") ∧
    (∀ p, obj.processor = some p →
      ∃ m, ifgram.get_metadata fs obj "unwrapPhase" = .ok (m, p) ∧
        lookupD m "PROCESSOR" = some p) ∧
    (∀ pv, g.processor = none → lookupD gmd "PROCESSOR" = some pv →
      ∃ m, geometry.get_metadata fs g "height" = .ok (m, pv) ∧
        lookupD m "PROCESSOR" = some pv) ∧
    (g.processor = none → lookupD gmd "PROCESSOR" = none →
      fs.pathExists (gfile ++ ".xml") = true →
      ∃ m, geometry.get_metadata fs g "height" = .ok (m, "isce") ∧
        lookupD m "PROCESSOR" = some "isce") ∧
    (g.processor = none → lookupD gmd "PROCESSOR" = none →
      fs.pathExists (gfile ++ ".xml") = false → fs.pathExists (gfile ++ ".rsc") = true →
      ∃ m, geometry.get_metadata fs g "height" = .ok (m, "roipac") ∧
        lookupD m "PROCESSOR" = some "roipac") ∧
    (g.processor = none → lookupD gmd "PROCESSOR" = none →
      fs.pathExists (gfile ++ ".xml") = false → fs.pathExists (gfile ++ ".rsc") = false →
      fs.pathExists (gfile ++ ".par") = true →
      ∃ m, geometry.get_metadata fs g "height" = .ok (m, "gamma") ∧
        lookupD m "PROCESSOR" = some "gamma") ∧
    (g.processor = none → lookupD gmd "PROCESSOR" = none →
      fs.pathExists (gfile ++ ".xml") = false → fs.pathExists (gfile ++ ".rsc") = false →
      fs.pathExists (gfile ++ ".par") = false → lastExt gfile = "grd" →
      ∃ m, geometry.get_metadata fs g "height" = .ok (m, "gmtsar") ∧
        lookupD m "PROCESSOR" = some "gmtsar") ∧
    (g.processor = none → lookupD gmd "PROCESSOR" = none →
      fs.pathExists (gfile ++ ".xml") = false → fs.pathExists (gfile ++ ".rsc") = false →
      fs.pathExists (gfile ++ ".par") = false → lastExt gfile ≠ "grd" →
      ∃ m, geometry.get_metadata fs g "height" = .ok (m, "isce") ∧
        lookupD m "PROCESSOR" = some "isce") ∧
    (∀ p, g.processor = some p →
      ∃ m, geometry.get_metadata fs g "height" = .ok (m, p) ∧
        lookupD m "PROCESSOR" = some p) := by
  refine ⟨?_, ?_, ?_, ?_, ?_, ?_, ?_, ?_, ?_, ?_, ?_, ?_, ?_, ?_⟩
  · intro h0 h1
    simp only [ifgram.get_metadata, hf, hmd, hL, hW, h0, h1, if_true]
    exact ⟨_, rfl, by
      rw [lookupD_tagStep_ne _ _ _ _ (by decide), lookupD_tagStep_ne _ _ _ _ (by decide),
        lookupD_setKV_self]⟩
  · intro h0 h1 h2
    simp only [ifgram.get_metadata, hf, hmd, hL, hW, h0, h1, h2, if_true,
      Bool.false_eq_true, if_false]
    exact ⟨_, rfl, by
      rw [lookupD_tagStep_ne _ _ _ _ (by decide), lookupD_tagStep_ne _ _ _ _ (by decide),
        lookupD_setKV_self]⟩
  · intro h0 h1 h2 h3
    simp only [ifgram.get_metadata, hf, hmd, hL, hW, h0, h1, h2, h3, if_true,
      Bool.false_eq_true, if_false]
    exact ⟨_, rfl, by
      rw [lookupD_tagStep_ne _ _ _ _ (by decide), lookupD_tagStep_ne _ _ _ _ (by decide),
        lookupD_setKV_self]⟩
  · intro h0 h1 h2 h3 h4
    simp only [ifgram.get_metadata, hf, hmd, hL, hW, h0, h1, h2, h3, h4, if_true,
      Bool.false_eq_true, if_false]
    exact ⟨_, rfl, by
      rw [lookupD_tagStep_ne _ _ _ _ (by decide), lookupD_tagStep_ne _ _ _ _ (by decide),
        lookupD_setKV_self]⟩
  · intro pv h0 h1 h2 h3 h4 h5
    simp only [ifgram.get_metadata, hf, hmd, hL, hW, h0, h1, h2, h3, h4, h5,
      Bool.false_eq_true, if_false, if_neg h4]
    exact ⟨_, rfl, by
      rw [lookupD_tagStep_ne _ _ _ _ (by decide), lookupD_tagStep_ne _ _ _ _ (by decide),
        lookupD_setKV_self]⟩
  · intro h0 h1 h2 h3 h4 h5
    simp only [ifgram.get_metadata, hf, hmd, hL, hW, h0, h1, h2, h3, h4, h5,
      Bool.false_eq_true, if_false, if_neg h4]
    exact ⟨_, rfl, by
      rw [lookupD_tagStep_ne _ _ _ _ (by decide), lookupD_tagStep_ne _ _ _ _ (by decide),
        lookupD_setKV_self]⟩
  · intro p h0
    simp only [ifgram.get_metadata, hf, hmd, hL, hW, h0]
    exact ⟨_, rfl, by
      rw [lookupD_tagStep_ne _ _ _ _ (by decide), lookupD_tagStep_ne _ _ _ _ (by decide),
        lookupD_setKV_self]⟩
  · intro pv h0 h1
    simp only [geometry.get_metadata, hgf, hgmd, hgL, hgW, h0, h1]
    exact ⟨_, rfl, lookupD_setKV_self _ _ _⟩
  · intro h0 h1 h2
    simp only [geometry.get_metadata, hgf, hgmd, hgL, hgW, h0, h1, h2, if_true]
    exact ⟨_, rfl, lookupD_setKV_self _ _ _⟩
  · intro h0 h1 h2 h3
    simp only [geometry.get_metadata, hgf, hgmd, hgL, hgW, h0, h1, h2, h3, if_true,
      Bool.false_eq_true, if_false]
    exact ⟨_, rfl, lookupD_setKV_self _ _ _⟩
  · intro h0 h1 h2 h3 h4
    simp only [geometry.get_metadata, hgf, hgmd, hgL, hgW, h0, h1, h2, h3, h4, if_true,
      Bool.false_eq_true, if_false]
    exact ⟨_, rfl, lookupD_setKV_self _ _ _⟩
  · intro h0 h1 h2 h3 h4 h5
    simp only [geometry.get_metadata, hgf, hgmd, hgL, hgW, h0, h1, h2, h3, h4, h5,
      Bool.false_eq_true, if_false]
    exact ⟨_, rfl, lookupD_setKV_self _ _ _⟩
  · intro h0 h1 h2 h3 h4 h5
    simp only [geometry.get_metadata, hgf, hgmd, hgL, hgW, h0, h1, h2, h3, h4, h5,
      Bool.false_eq_true, if_false, if_neg h5]
    exact ⟨_, rfl, lookupD_setKV_self _ _ _⟩
  · intro p h0
    simp only [geometry.get_metadata, hgf, hgmd, hgL, hgW, h0]
    exact ⟨_, rfl, lookupD_setKV_self _ _ _⟩

/-- Witness for C3: an isce sidecar wins for an ifgram record, the PROCESSOR
attribute is passed through when no probe hits, and for a geometry record the
PROCESSOR attribute wins even though the file also has an isce sidecar and a
grd extension. -/
theorem processor_inference_order_witness :
    (∃ m, ifgram.get_metadata fsB objA "unwrapPhase" = .ok (m, "isce") ∧
      lookupD m "PROCESSOR" = some "isce") ∧
    (∃ m, ifgram.get_metadata fsB objB "unwrapPhase" = .ok (m, "doris") ∧
      lookupD m "PROCESSOR" = some "doris") ∧
    (∃ m, geometry.get_metadata fsB geomB "height" = .ok (m, "roipac") ∧
      lookupD m "PROCESSOR" = some "roipac") := by
  refine ⟨?_, ?_, ?_⟩
  · exact (processor_inference_order fsB objA "a.unw" [("LENGTH", "1"), ("WIDTH", "1")]
      geomB "g.grd" [("LENGTH", "1"), ("WIDTH", "1"), ("PROCESSOR", "roipac")] 1 1 1 1
      (by decide) (by decide) (by decide) (by decide) (by decide) (by decide)
      (by decide) (by decide)).1 rfl (by decide)
  · exact (processor_inference_order fsB objB "b.unw"
      [("LENGTH", "1"), ("WIDTH", "1"), ("PROCESSOR", "doris")]
      geomB "g.grd" [("LENGTH", "1"), ("WIDTH", "1"), ("PROCESSOR", "roipac")] 1 1 1 1
      (by decide) (by decide) (by decide) (by decide) (by decide) (by decide)
      (by decide) (by decide)).2.2.2.2.1 "doris" rfl (by decide) (by decide) (by decide)
      (by decide) (by decide)
  · exact (processor_inference_order fsB objA "a.unw" [("LENGTH", "1"), ("WIDTH", "1")]
      geomB "g.grd" [("LENGTH", "1"), ("WIDTH", "1"), ("PROCESSOR", "roipac")] 1 1 1 1
      (by decide) (by decide) (by decide) (by decide) (by decide) (by decide)
      (by decide) (by decide)).2.2.2.2.2.2.2.1 "roipac" rfl (by decide)

/-- C1: with no box, ifgramStack.save2h5 on N pairs whose rasters (and the
reference file's LENGTH/WIDTH attributes) share one (length, width) creates,
for each dataset family registered on the first pair, a 3-D dataset of shape
exactly (N, length, width), and a date dataset of N rows of two 8-character
date strings. -/
theorem stack_save2h5_shapes (fs : FileSys) (st : ifgramStack) (out : String)
    (prior : Option H5File)
    (q0 : (String × String) × ifgram) (qrest : List ((String × String) × ifgram))
    (hpd : st.pairsDict = q0 :: qrest)
    (dsNames : List String) (hds : dsNames = q0.2.datasetDict.map Prod.fst)
    (hne : dsNames ≠ []) (hnd : dsNames.Nodup)
    (hr1 : "date" ∉ dsNames) (hr2 : "bperp" ∉ dsNames) (hr3 : "dropIfgram" ∉ dsNames)
    (n l w : ℕ) (hsz : ifgramStack.get_size fs st none = .ok (n, l, w))
    (hread : ∀ q ∈ st.pairsDict, ∀ d ∈ dsNames, readOkDims fs q.2 d none l w = true)
    (hbp : ∀ q ∈ st.pairsDict, exOk (ifgram.get_perp_baseline fs q.2) = true)
    (md : AttrDict) (pc : String) (hmd : ifgramStack.get_metadata fs st = .ok (md, pc))
    (hdate : ∀ q ∈ st.pairsDict, q.1.1.length = 8 ∧ q.1.2.length = 8) :
    ∃ gr : H5Group,
      ifgramStack.save2h5 fs st out "w" none prior = .ok (out, ⟨[(st.name, gr)]⟩) ∧
      (∀ d ∈ dsNames, ∃ stack : List Raster,
        lookupD gr.dsets d = some (.d3 (stackDType d) stack) ∧
        stack.length = n ∧ ∀ r ∈ stack, r.length = l ∧ ∀ row ∈ r, row.length = w) ∧
      lookupD gr.dsets "date" = some (.d2str (st.pairsDict.map Prod.fst)) ∧
      (st.pairsDict.map Prod.fst).length = n ∧
      (∀ pr ∈ st.pairsDict.map Prod.fst, pr.1.length = 8 ∧ pr.2.length = 8) := by
  have hopen : h5open "w" prior = .ok ⟨[]⟩ := by simp [h5open]
  have hgrp0 : lookupD (⟨[]⟩ : H5File).groups st.name = none := rfl
  have hmain := save2h5_stack_ok fs st out "w" none prior ⟨[]⟩ q0 qrest hpd dsNames hds
    hne hnd hr1 hr2 hr3 hopen hgrp0 n l w hsz hread hbp md pc hmd
  have hn := stack_get_size_len fs st none n l w hsz
  refine ⟨_, by simpa using hmain, ?_, ?_, ?_, ?_⟩
  · intro d hd
    refine ⟨st.pairsDict.map (fun q => readData fs q.2 d none), ?_, ?_, ?_⟩
    · exact lookupD_append_of_some _ _ _ _
        (by rw [lookupD_map_mk]; exact if_pos hd)
    · simp [hn]
    · intro r hrm
      obtain ⟨q, hq, hqe⟩ := List.mem_map.1 hrm
      obtain ⟨r0, a, hre, hdim⟩ := readOkDims_elim fs q.2 d none l w (hread q hq d hd)
      rw [← hqe, readData_eq fs q.2 d none r0 a hre]
      exact (dimsB_iff r0 l w).1 hdim
  · rw [lookupD_append_of_none _ _ _ (lookupD_map_mk_none _ _ _ hr1)]
    simp [lookupD]
  · simp [hn]
  · intro pr hpr
    obtain ⟨q, hq, hqe⟩ := List.mem_map.1 hpr
    rw [← hqe]
    exact hdate q hq

/-- Witness for C1: two concrete pairs with two families of 2-by-2 rasters. -/
theorem stack_save2h5_shapes_witness :
    ∃ gr : H5Group,
      ifgramStack.save2h5 fsA stA "ifgramStack.h5" "w" none none =
        .ok ("ifgramStack.h5", ⟨[("ifgramStack", gr)]⟩) ∧
      (∀ d ∈ ["unwrapPhase", "coherence"], ∃ stack : List Raster,
        lookupD gr.dsets d = some (.d3 (stackDType d) stack) ∧
        stack.length = 2 ∧ ∀ r ∈ stack, r.length = 2 ∧ ∀ row ∈ r, row.length = 2) ∧
      lookupD gr.dsets "date" =
        some (.d2str [("20160524", "20160530"), ("20160524", "20160605")]) ∧
      ([("20160524", "20160530"), ("20160524", "20160605")] :
        List (String × String)).length = 2 ∧
      (∀ pr ∈ ([("20160524", "20160530"), ("20160524", "20160605")] :
        List (String × String)), pr.1.length = 8 ∧ pr.2.length = 8) :=
  stack_save2h5_shapes fsA stA "ifgramStack.h5" none
    (("20160524", "20160530"), ifg1) [(("20160524", "20160605"), ifg2)] rfl
    ["unwrapPhase", "coherence"] (by decide) (by decide) (by decide)
    (by decide) (by decide) (by decide) 2 2 2 (by decide) (by decide) (by decide)
    [("LENGTH", "2"), ("WIDTH", "2"), ("P_BASELINE_TOP_HDR", "1"),
     ("P_BASELINE_BOTTOM_HDR", "3"), ("PROCESSOR", "isce")] "isce" (by decide)
    (by decide)

/-- C2: for a box (x0,y0,x1,y1) with x1 greater than x0 and y1 greater than
y0, ifgramStack.get_size and geometry.get_size both return length = y1 - y0
and width = x1 - x0 (the box takes precedence over the file's LENGTH/WIDTH
attributes), and every per-pair stack slice written under the box is exactly
that submatrix of the source raster. -/
theorem box_subsetting (fs : FileSys) (st : ifgramStack) (g : geometry) (out : String)
    (prior : Option H5File) (x0 y0 x1 y1 : ℕ) (_hx : x0 < x1) (_hy : y0 < y1)
    (q0 : (String × String) × ifgram) (qrest : List ((String × String) × ifgram))
    (hpd : st.pairsDict = q0 :: qrest)
    (l0 w0 : ℕ) (hsz0 : ifgram.get_size fs q0.2 = .ok (l0, w0))
    (gfile : String) (gmd : AttrDict)
    (hgf : lookupD g.datasetDict "height" = some gfile)
    (hgmd : fs.attrOf gfile = some gmd)
    (dsNames : List String) (hds : dsNames = q0.2.datasetDict.map Prod.fst)
    (hne : dsNames ≠ []) (hnd : dsNames.Nodup)
    (hr1 : "date" ∉ dsNames) (hr2 : "bperp" ∉ dsNames) (hr3 : "dropIfgram" ∉ dsNames)
    (hread : ∀ q ∈ st.pairsDict, ∀ d ∈ dsNames,
      readOkDims fs q.2 d (some (x0, y0, x1, y1)) (y1 - y0) (x1 - x0) = true)
    (hbp : ∀ q ∈ st.pairsDict, exOk (ifgram.get_perp_baseline fs q.2) = true)
    (md : AttrDict) (pc : String)
    (hmd : ifgramStack.get_metadata fs st = .ok (md, pc)) :
    ifgramStack.get_size fs st (some (x0, y0, x1, y1)) =
      .ok (st.pairsDict.length, y1 - y0, x1 - x0) ∧
    geometry.get_size fs g (some (x0, y0, x1, y1)) = .ok (y1 - y0, x1 - x0) ∧
    ∃ gr : H5Group,
      ifgramStack.save2h5 fs st out "w" (some (x0, y0, x1, y1)) prior =
        .ok (out, ⟨[(st.name, gr)]⟩) ∧
      (∀ d ∈ dsNames,
        lookupD gr.dsets d = some (.d3 (stackDType d)
          (st.pairsDict.map fun q => readData fs q.2 d (some (x0, y0, x1, y1))))) ∧
      (∀ q ∈ st.pairsDict, ∀ d ∈ dsNames, ∀ p r,
        lookupD q.2.datasetDict d = some p → fs.rasterOf p = some r →
        readData fs q.2 d (some (x0, y0, x1, y1)) = crop r (some (x0, y0, x1, y1))) := by
  have hA := stack_get_size_box fs st q0 qrest hpd l0 w0 hsz0 x0 y0 x1 y1
  refine ⟨hA, ?_, ?_⟩
  · simp [geometry.get_size, geometryDatasetNames, hgf, hgmd]
  · have hopen : h5open "w" prior = .ok ⟨[]⟩ := by simp [h5open]
    have hgrp0 : lookupD (⟨[]⟩ : H5File).groups st.name = none := rfl
    have hmain := save2h5_stack_ok fs st out "w" (some (x0, y0, x1, y1)) prior ⟨[]⟩
      q0 qrest hpd dsNames hds hne hnd hr1 hr2 hr3 hopen hgrp0
      st.pairsDict.length (y1 - y0) (x1 - x0) hA hread hbp md pc hmd
    refine ⟨_, by simpa using hmain, ?_, ?_⟩
    · intro d hd
      exact lookupD_append_of_some _ _ _ _ (by rw [lookupD_map_mk]; exact if_pos hd)
    · intro q hq d hd p r hp hrr
      simp [readData, ifgram.read, readfile_read, hp, hrr]

/-- Witness for C2 at the box (0, 1, 2, 2) over concrete 2-by-2 rasters. -/
theorem box_subsetting_witness :
    ifgramStack.get_size fsA stA (some (0, 1, 2, 2)) = .ok (2, 1, 2) ∧
    geometry.get_size fsA geomA (some (0, 1, 2, 2)) = .ok (1, 2) ∧
    ∃ gr : H5Group,
      ifgramStack.save2h5 fsA stA "ifgramStack.h5" "w" (some (0, 1, 2, 2)) none =
        .ok ("ifgramStack.h5", ⟨[("ifgramStack", gr)]⟩) ∧
      (∀ d ∈ ["unwrapPhase", "coherence"],
        lookupD gr.dsets d = some (.d3 (stackDType d)
          (stA.pairsDict.map fun q => readData fsA q.2 d (some (0, 1, 2, 2))))) ∧
      (∀ q ∈ stA.pairsDict, ∀ d ∈ ["unwrapPhase", "coherence"], ∀ p r,
        lookupD q.2.datasetDict d = some p → fsA.rasterOf p = some r →
        readData fsA q.2 d (some (0, 1, 2, 2)) = crop r (some (0, 1, 2, 2))) :=
  box_subsetting fsA stA geomA "ifgramStack.h5" none 0 1 2 2 (by decide) (by decide)
    (("20160524", "20160530"), ifg1) [(("20160524", "20160605"), ifg2)] rfl
    2 2 (by decide) "g1" [("LENGTH", "2"), ("WIDTH", "2")] (by decide) (by decide)
    ["unwrapPhase", "coherence"] (by decide) (by decide) (by decide)
    (by decide) (by decide) (by decide) (by decide) (by decide)
    [("LENGTH", "2"), ("WIDTH", "2"), ("P_BASELINE_TOP_HDR", "1"),
     ("P_BASELINE_BOTTOM_HDR", "3"), ("PROCESSOR", "isce")] "isce" (by decide)

/-- C4: when reading a single pair's dataset fails during ifgramStack.save2h5
(all other reads succeeding), the whole write aborts and the read's error is
the result, propagated unrecovered; no output container value is produced on
the failure path. -/
theorem read_failure_aborts (fs : FileSys) (st : ifgramStack) (out mode : String)
    (box : Option Box) (prior : Option H5File) (f0 : H5File)
    (q0 : (String × String) × ifgram) (qrest : List ((String × String) × ifgram))
    (hpd : st.pairsDict = q0 :: qrest)
    (dsNames : List String) (hds : dsNames = q0.2.datasetDict.map Prod.fst)
    (hne : dsNames ≠ []) (hnd : dsNames.Nodup) (hpnd : st.pairsDict.Nodup)
    (hopen : h5open mode prior = .ok f0)
    (hgrp : lookupD f0.groups st.name = none)
    (n l w : ℕ) (hsz : ifgramStack.get_size fs st box = .ok (n, l, w))
    (qf : (String × String) × ifgram) (hqf : qf ∈ st.pairsDict)
    (df : String) (hdf : df ∈ dsNames) (e : Err)
    (hfail : ifgram.read fs qf.2 df box = .error e)
    (hothers : ∀ q ∈ st.pairsDict, ∀ d ∈ dsNames, ¬(q = qf ∧ d = df) →
      readOkDims fs q.2 d box l w = true)
    (hbp : ∀ q ∈ st.pairsDict, exOk (ifgram.get_perp_baseline fs q.2) = true) :
    ifgramStack.save2h5 fs st out mode box prior = .error e := by
  have hn := stack_get_size_len fs st box n l w hsz
  have hie := isEmpty_false_of_ne_nil _ hne
  obtain ⟨dpre, dpost, hdsplit⟩ := List.append_of_mem hdf
  have hdnp : df ∉ dpre := by
    intro hc
    rw [hdsplit] at hnd
    obtain ⟨-, -, hdisj⟩ := List.nodup_append.1 hnd
    exact hdisj hc (List.mem_cons_self df dpost)
  obtain ⟨ppre, ppost, hpsplit⟩ := List.append_of_mem hqf
  have hqnp : qf ∉ ppre := by
    intro hc
    rw [hpsplit] at hpnd
    obtain ⟨-, -, hdisj⟩ := List.nodup_append.1 hpnd
    exact hdisj hc (List.mem_cons_self qf ppost)
  have hpre_nodup : dpre.Nodup := by
    rw [hdsplit] at hnd
    exact (List.nodup_append.1 hnd).1
  have hobjs : st.pairsDict.map Prod.snd =
      ppre.map Prod.snd ++ qf.2 :: ppost.map Prod.snd := by
    rw [hpsplit]
    simp
  have happ := writeFamilies_append fs box l w n (st.pairsDict.map Prod.snd)
    (by simp [hn]) dpre (df :: dpost) [] (List.replicate n 0) (by simp)
    hpre_nodup (fun d _ => rfl)
    (fun o ho d hd => by
      obtain ⟨q, hq, hqe⟩ := List.mem_map.1 ho
      rw [← hqe]
      refine hothers q hq d (by rw [hdsplit]; exact List.mem_append_left _ hd) ?_
      rintro ⟨-, rfl⟩
      exact hdnp hd)
    (fun o ho => by
      obtain ⟨q, hq, hqe⟩ := List.mem_map.1 ho
      rw [← hqe]
      exact hbp q hq)
  have hfill := fillSlices_err fs box l w df (ppre.map Prod.snd) qf.2
    (ppost.map Prod.snd) 0
    (List.replicate n (zeroRaster l w))
    (if dpre.isEmpty then List.replicate n 0
     else (st.pairsDict.map Prod.snd).map (fun o => bperpD fs o)) e
    (fun o ho => by
      obtain ⟨q, hq, hqe⟩ := List.mem_map.1 ho
      rw [← hqe]
      refine hothers q (by rw [hpsplit]; exact List.mem_append_left _ hq) df hdf ?_
      rintro ⟨rfl, -⟩
      exact hqnp hq)
    (fun o ho => by
      obtain ⟨q, hq, hqe⟩ := List.mem_map.1 ho
      rw [← hqe]
      exact hbp q (by rw [hpsplit]; exact List.mem_append_left _ hq))
    hfail
  rw [← hobjs] at hfill
  rw [hpd] at happ hfill
  simp only [ifgramStack.save2h5, hopen, hgrp, Option.isSome_none, Bool.false_eq_true,
    if_false, hpd, ← hds, hie, hsz]
  rw [hdsplit, happ]
  simp only [writeFamilies, List.nil_append,
    lookupD_map_mk_none (fun d => Dset.d3 (stackDType d)
      (List.map (fun o => readData fs o d box) (List.map Prod.snd (q0 :: qrest))))
      dpre df hdnp,
    Option.isSome_none, Bool.false_eq_true, if_false, hfill]

/-- Witness for C4: the coherence raster of the second pair cannot be read, so
save2h5 returns exactly that read error. -/
theorem read_failure_aborts_witness :
    ifgram.read fsE ifg2 "coherence" none = .error (.readError "c2") ∧
    ifgramStack.save2h5 fsE stA "ifgramStack.h5" "w" none none =
      .error (.readError "c2") :=
  ⟨by decide,
   read_failure_aborts fsE stA "ifgramStack.h5" "w" none none ⟨[]⟩
     (("20160524", "20160530"), ifg1) [(("20160524", "20160605"), ifg2)] rfl
     ["unwrapPhase", "coherence"] (by decide) (by decide) (by decide) (by decide)
     (by decide) rfl 2 2 2 (by decide)
     (("20160524", "20160605"), ifg2) (by decide) "coherence" (by decide)
     (.readError "c2") (by decide) (by decide) (by decide)⟩

/-- C5 counterexample: update mode on a container that already holds the stack
group does not resize anything; it fails with a duplicate-group error, because
the source unconditionally re-creates the root group. -/
theorem update_mode_counterexample :
    ifgramStack.save2h5 fsA ⟨"ifgramStack", []⟩ "ifgramStack.h5" "r+" none
      (some ⟨[("ifgramStack", ⟨[], []⟩)]⟩) = .error (.duplicateGroup "ifgramStack") := by
  decide

/-- C5 amended: in update mode ('r+') on an existing container, save2h5 fails
with a duplicate-group error whenever the stack group already exists; when the
container exists but lacks the stack group, a fresh group is created in which
the date, bperp and dropIfgram datasets are all created anew (the bperp resize
branch never fires because the group is fresh), and all other existing groups
of the container are preserved unchanged in front of the new group. -/
theorem update_mode_behavior (fs : FileSys) (st : ifgramStack) (out : String)
    (box : Option Box) (priorF : H5File) :
    (∀ gr, lookupD priorF.groups st.name = some gr →
      ifgramStack.save2h5 fs st out "r+" box (some priorF) =
        .error (.duplicateGroup st.name)) ∧
    (∀ (q0 : (String × String) × ifgram) (qrest : List ((String × String) × ifgram))
       (dsNames : List String) (n l w : ℕ) (md : AttrDict) (pc : String),
      st.pairsDict = q0 :: qrest →
      dsNames = q0.2.datasetDict.map Prod.fst →
      dsNames ≠ [] → dsNames.Nodup →
      "date" ∉ dsNames → "bperp" ∉ dsNames → "dropIfgram" ∉ dsNames →
      lookupD priorF.groups st.name = none →
      ifgramStack.get_size fs st box = .ok (n, l, w) →
      (∀ q ∈ st.pairsDict, ∀ d ∈ dsNames, readOkDims fs q.2 d box l w = true) →
      (∀ q ∈ st.pairsDict, exOk (ifgram.get_perp_baseline fs q.2) = true) →
      ifgramStack.get_metadata fs st = .ok (md, pc) →
      ifgramStack.save2h5 fs st out "r+" box (some priorF) =
        .ok (out, ⟨priorF.groups ++ [(st.name,
          ⟨(dsNames.map fun d => (d, Dset.d3 (stackDType d)
              (st.pairsDict.map fun q => readData fs q.2 d box)))
            ++ [("date", Dset.d2str (st.pairsDict.map Prod.fst)),
                ("bperp", Dset.d1 (st.pairsDict.map fun q => bperpD fs q.2)),
                ("dropIfgram", Dset.d1b (List.replicate n true))],
            subset_attribute fs md box⟩)]⟩)) := by
  have hopen : h5open "r+" (some priorF) = .ok priorF := by simp [h5open]
  constructor
  · intro gr hgr
    simp [ifgramStack.save2h5, hopen, hgr]
  · intro q0 qrest dsNames n l w md pc hpd hds hne hnd hr1 hr2 hr3 hgrp hsz hread hbp hmd
    exact save2h5_stack_ok fs st out "r+" box (some priorF) priorF q0 qrest hpd
      dsNames hds hne hnd hr1 hr2 hr3 hopen hgrp n l w hsz hread hbp md pc hmd

/-- Witness for C5's amended behaviour: the duplicate-group failure at a
concrete container, and a full update-mode run against a container holding an
unrelated group, which is preserved in front of the freshly created stack
group. -/
theorem update_mode_behavior_witness :
    ifgramStack.save2h5 fsA ⟨"ifgramStack", []⟩ "o.h5" "r+" none
        (some ⟨[("ifgramStack", ⟨[], []⟩)]⟩) = .error (.duplicateGroup "ifgramStack") ∧
    ifgramStack.save2h5 fsA stA "o.h5" "r+" none (some ⟨[("other", ⟨[], []⟩)]⟩) =
      .ok ("o.h5", ⟨[("other", ⟨[], []⟩),
        ("ifgramStack", ⟨[
          ("unwrapPhase", .d3 .float32 [[[1, 2], [3, 4]], [[5, 6], [7, 8]]]),
          ("coherence", .d3 .float32 [[[1, 0], [0, 1]], [[0, 1], [1, 0]]]),
          ("date", .d2str [("20160524", "20160530"), ("20160524", "20160605")]),
          ("bperp", .d1 (stA.pairsDict.map fun q => bperpD fsA q.2)),
          ("dropIfgram", .d1b [true, true])],
          [("LENGTH", "2"), ("WIDTH", "2"), ("P_BASELINE_TOP_HDR", "1"),
           ("P_BASELINE_BOTTOM_HDR", "3"), ("PROCESSOR", "isce")]⟩)]⟩) := by
  constructor
  · exact (update_mode_behavior fsA ⟨"ifgramStack", []⟩ "o.h5" none
      ⟨[("ifgramStack", ⟨[], []⟩)]⟩).1 ⟨[], []⟩ (by decide)
  · exact (update_mode_behavior fsA stA "o.h5" none ⟨[("other", ⟨[], []⟩)]⟩).2
      (("20160524", "20160530"), ifg1) [(("20160524", "20160605"), ifg2)]
      ["unwrapPhase", "coherence"] 2 2 2
      [("LENGTH", "2"), ("WIDTH", "2"), ("P_BASELINE_TOP_HDR", "1"),
       ("P_BASELINE_BOTTOM_HDR", "3"), ("PROCESSOR", "isce")] "isce"
      rfl (by decide) (by decide) (by decide) (by decide) (by decide) (by decide)
      (by decide) (by decide) (by decide) (by decide) (by decide)

/-- C7: geometry.get_incidenceAngle and geometry.get_slantRangeDistance return
None whenever the record has no reference interferogram metadata or that
metadata carries the geocoded marker Y_FIRST; in that case geometry.save2h5
writes no incidenceAngle or slantRangeDistance dataset unless the layer is
explicitly registered in the dataset mapping. -/
theorem geocoded_derived_skip (fs : FileSys) (g : geometry) (out mode : String)
    (box : Option Box) (prior : Option H5File)
    (hcond : g.ifgramMetadata = none ∨
      ∃ md, g.ifgramMetadata = some md ∧ (lookupD md "Y_FIRST").isSome = true)
    (hinc : "incidenceAngle" ∉ g.datasetDict.map Prod.fst)
    (hsl : "slantRangeDistance" ∉ g.datasetDict.map Prod.fst) :
    geometry.get_incidenceAngle fs g box = none ∧
    geometry.get_slantRangeDistance fs g box = none ∧
    (∀ p file, geometry.save2h5 fs g out mode box prior = .ok (some (p, file)) →
      ∀ gr, lookupD file.groups g.name = some gr →
        lookupD gr.dsets "incidenceAngle" = none ∧
        lookupD gr.dsets "slantRangeDistance" = none) := by
  have hga : geometry.get_incidenceAngle fs g box = none := by
    rcases hcond with h | ⟨mdr, hm, hy⟩
    · simp [geometry.get_incidenceAngle, h]
    · simp [geometry.get_incidenceAngle, hm, hy]
  have hgs : geometry.get_slantRangeDistance fs g box = none := by
    rcases hcond with h | ⟨mdr, hm, hy⟩
    · simp [geometry.get_slantRangeDistance, h]
    · simp [geometry.get_slantRangeDistance, hm, hy]
  refine ⟨hga, hgs, ?_⟩
  intro p file hsave gr hgr
  simp only [geometry.save2h5] at hsave
  by_cases hemp : g.datasetDict.isEmpty
  · rw [if_pos hemp] at hsave
    simp at hsave
  · rw [if_neg hemp] at hsave
    cases hop : h5open mode prior with
    | error e =>
        simp only [hop] at hsave
        simp at hsave
    | ok f0 =>
        simp only [hop] at hsave
        by_cases hdup : (lookupD f0.groups g.name).isSome
        · rw [if_pos hdup] at hsave
          simp at hsave
        · rw [if_neg hdup] at hsave
          cases hsz : geometry.get_size fs g box with
          | error e =>
              simp only [hsz] at hsave
              simp at hsave
          | ok lw =>
              obtain ⟨l, w⟩ := lw
              simp only [hsz] at hsave
              cases hloop : geomWriteLoop fs g box l w (g.datasetDict.map Prod.fst) [] with
              | error e =>
                  simp only [hloop] at hsave
                  simp at hsave
              | ok dss =>
                  simp only [hloop, derivedStep, hga, hgs, ite_self] at hsave
                  cases hmdv : geometry.get_metadata fs g (geometryDatasetNames.headD "") with
                  | error e =>
                      simp only [hmdv] at hsave
                      simp at hsave
                  | ok mp =>
                      obtain ⟨mdv, pcv⟩ := mp
                      simp only [hmdv, Except.ok.injEq, Option.some.injEq,
                        Prod.mk.injEq] at hsave
                      obtain ⟨-, hfile⟩ := hsave
                      subst hfile
                      have hnone : lookupD f0.groups g.name = none :=
                        Option.not_isSome_iff_eq_none.1 hdup
                      rw [lookupD_append_of_none _ _ _ hnone] at hgr
                      simp only [lookupD, eq_self_iff_true, if_true,
                        Option.some.injEq] at hgr
                      subst hgr
                      constructor
                      · exact (geomWriteLoop_lookup fs g box l w
                          (g.datasetDict.map Prod.fst) [] dss "incidenceAngle"
                          hloop hinc).trans rfl
                      · exact (geomWriteLoop_lookup fs g box l w
                          (g.datasetDict.map Prod.fst) [] dss "slantRangeDistance"
                          hloop hsl).trans rfl

/-- Witness for C7: a record whose reference metadata carries Y_FIRST. -/
theorem geocoded_derived_skip_witness :
    geometry.get_incidenceAngle fsA geomY none = none ∧
    geometry.get_slantRangeDistance fsA geomY none = none ∧
    (∀ p file,
      geometry.save2h5 fsA geomY "geometryRadar.h5" "w" none none = .ok (some (p, file)) →
      ∀ gr, lookupD file.groups geomY.name = some gr →
        lookupD gr.dsets "incidenceAngle" = none ∧
        lookupD gr.dsets "slantRangeDistance" = none) :=
  geocoded_derived_skip fsA geomY "geometryRadar.h5" "w" none none
    (Or.inr ⟨[("Y_FIRST", "10")], rfl, rfl⟩) (by decide) (by decide)
